import Mathlib

/-!
Formal model of the ClawScan core scan engine.

This development embeds the scan engine of the `clawscan` repository
(packages/core) in Lean 4: the data model (findings, severities, scan
results), the file-discovery walk, the four detectors (credential pattern
matching, structured-config secret extraction, container configuration
auditing, ignore-coverage analysis), and the aggregator that filters by
minimum severity and tallies per-severity counts.

JavaScript strings are embedded as `List Char` (the `String` type is kept
for record fields, with all operations defined on the underlying character
lists so that everything evaluates by kernel reduction).  JavaScript
regular expressions are embedded by a small regular-expression engine
(`RItem` / `matchItems`) with greedy, backtracking, leftmost-match
semantics matching `RegExp.prototype.exec`; each pattern of the source is
transcribed into this engine.  Filesystem state is embedded as a tree of
entries in which directories and file contents can be marked unreadable,
modelling `readdir` and `readFile` failures.
-/

/-! ### Character-list utilities (JS string operations) -/

/-- If `p` is a prefix of `s`, return the remainder of `s`, else `none`.
Used to embed literal matching and `String.prototype.startsWith`. -/
def dropPrefix? : List Char → List Char → Option (List Char)
  | [], s => some s
  | _ :: _, [] => none
  | p :: ps, c :: cs => if p = c then dropPrefix? ps cs else none

/-- First index at which `needle` occurs in `hay`
(JS `String.prototype.indexOf`; `none` stands for `-1`). -/
def indexOfSub? (needle : List Char) : List Char → Option Nat
  | [] => if (dropPrefix? needle []).isSome then some 0 else none
  | c :: t =>
    if (dropPrefix? needle (c :: t)).isSome then some 0
    else (indexOfSub? needle t).map (· + 1)

/-- JS `String.prototype.includes`. -/
def strIncludes (hay needle : List Char) : Bool :=
  (indexOfSub? needle hay).isSome

/-- JS `String.prototype.endsWith`. -/
def endsWithL (s suffixChars : List Char) : Bool :=
  decide (s.drop (s.length - suffixChars.length) = suffixChars)
    && decide (suffixChars.length ≤ s.length)

/-- JS `String.prototype.split` with a single-character separator:
splits at every occurrence, keeping empty pieces. -/
def jsSplit (sep : Char) : List Char → List (List Char)
  | [] => [[]]
  | c :: t =>
    if c = sep then [] :: jsSplit sep t
    else
      match jsSplit sep t with
      | [] => [[c]]
      | piece :: rest => (c :: piece) :: rest

/-- Characters treated as whitespace by JS `\s` and `trim`
(ASCII subset; the source never relies on Unicode space classes). -/
def jsWs (c : Char) : Bool :=
  c = ' ' || c = '\t' || c = '\n' || c = '\r' || c = '\x0b' || c = '\x0c'

/-- JS `String.prototype.trim` (ASCII whitespace). -/
def trimL (s : List Char) : List Char :=
  ((s.dropWhile jsWs).reverse.dropWhile jsWs).reverse

/-- JS `String.prototype.toLowerCase` (ASCII). -/
def toLowerL (s : List Char) : List Char :=
  s.map Char.toLower

/-- Number of newline characters in `l`; `content.substring(0, i).split('\n').length`
equals `countNl (content.take i) + 1`. -/
def countNl (l : List Char) : Nat :=
  l.countP (· = '\n')

/-- Index just after the last `'\n'` of `l`, if any
(from JS `lastIndexOf('\n')`, which returns `-1` when absent). -/
def lastNlPos? (l : List Char) : Option Nat :=
  match l with
  | [] => none
  | c :: t =>
    match lastNlPos? t with
    | some p => some (p + 1)
    | none => if c = '\n' then some 0 else none

/-! ### Severity and findings (packages/core/src/types.ts) -/

/-- Severity levels, ordered `critical > high > medium > low > info`. -/
inductive Severity where
  | critical
  | high
  | medium
  | low
  | info
deriving DecidableEq, Repr

/-- The numeric rank table used by `compareSeverity` in
packages/core/src/index.ts. -/
def severityOrder : Severity → Int
  | .critical => 4
  | .high => 3
  | .medium => 2
  | .low => 1
  | .info => 0

/-- `compareSeverity` from packages/core/src/index.ts:
positive if `a > b`, negative if `a < b`, `0` if equal. -/
def compareSeverity (a b : Severity) : Int :=
  severityOrder a - severityOrder b

/-- A single finding (the `Finding` interface of types.ts).  The source
field `match` is called `matchText` here (`match` is a Lean keyword). -/
structure Finding where
  scanner : String
  severity : Severity
  title : String
  description : String
  file : String
  line : Option Nat := none
  column : Option Nat := none
  matchText : Option String := none
  fix : Option String := none
  cwe : Option String := none
deriving DecidableEq, Repr

/-- The per-severity tally of a scan result (`summary` in types.ts);
it always carries all five severities. -/
structure Summary where
  critical : Nat
  high : Nat
  medium : Nat
  low : Nat
  info : Nat
deriving DecidableEq, Repr

/-- The all-zero summary the aggregator starts from. -/
def zeroSummary : Summary := ⟨0, 0, 0, 0, 0⟩

/-- Look up one severity's count in a summary. -/
def summaryGet (s : Summary) : Severity → Nat
  | .critical => s.critical
  | .high => s.high
  | .medium => s.medium
  | .low => s.low
  | .info => s.info

/-- `summary[finding.severity]++` of the aggregator loop. -/
def bumpSummary (s : Summary) : Severity → Summary
  | .critical => { s with critical := s.critical + 1 }
  | .high => { s with high := s.high + 1 }
  | .medium => { s with medium := s.medium + 1 }
  | .low => { s with low := s.low + 1 }
  | .info => { s with info := s.info + 1 }

/-- The summary computed by `scan`: start from all zeroes and bump the
count of each finding's severity. -/
def computeSummary (findings : List Finding) : Summary :=
  findings.foldl (fun acc f => bumpSummary acc f.severity) zeroSummary

/-- Sum of the five summary counts. -/
def sumSummary (s : Summary) : Nat :=
  s.critical + s.high + s.medium + s.low + s.info

/-- The read-only facade handed to every detector (`ScanContext` of
types.ts).  `readFile` returns `none` where the source read throws
(binary/permission/missing-file conditions). -/
structure ScanContext where
  root : String
  files : List String
  readFile : String → Option String
  fileExists : String → Bool

/-- A detector (`Scanner` of types.ts): identity plus one evaluation
operation.  The optional `filePatterns` hints are documentation only in
the source and are omitted. -/
structure Scanner where
  name : String
  description : String
  scan : ScanContext → List Finding

/-- Aggregate scan output (`ScanResult` of types.ts).  `durationMs` is
wall-clock time in the source; the model fixes it to `0`. -/
structure ScanResult where
  root : String
  filesScanned : Nat
  findings : List Finding
  durationMs : Nat
  summary : Summary
deriving DecidableEq, Repr

/-! ### Regular-expression engine

JS `RegExp` patterns used by the scanners are transcribed into lists of
`RItem`s: literals, character classes with counted repetition, (optional)
alternations of literal strings, the end-of-word boundary `\b` (every
occurrence in the source follows a word character), and negative
lookahead (as a predicate on the remaining input).  `matchItems` performs
greedy matching with backtracking, as `RegExp.prototype.exec` does for
these patterns. -/

/-- One element of a transcribed regular expression. -/
inductive RItem where
  /-- A literal character sequence. -/
  | lit (cs : List Char)
  /-- A character class repeated `lo` to `hi` times (`hi = none` means
  unbounded), matched greedily. -/
  | cls (p : Char → Bool) (lo : Nat) (hi : Option Nat)
  /-- An alternation of literal strings, tried in order (`ci` compares
  case-insensitively); an optional group lists `[]` as last branch. -/
  | alts (ci : Bool) (cases : List (List Char))
  /-- `\b` after a word character: the next input character, if any,
  is not a word character. -/
  | endWordB
  /-- Negative lookahead `(?!...)`: fails when `p` holds of the
  remaining input. -/
  | notAhead (p : List Char → Bool)

/-- A transcribed regular expression. -/
abbrev Regex := List RItem

/-- `[a-zA-Z0-9]`. -/
def alnumChar (c : Char) : Bool :=
  ('a' ≤ c && c ≤ 'z') || ('A' ≤ c && c ≤ 'Z') || ('0' ≤ c && c ≤ '9')

/-- `[0-9]`. -/
def digitChar (c : Char) : Bool := '0' ≤ c && c ≤ '9'

/-- `[A-Z]`. -/
def upperChar (c : Char) : Bool := 'A' ≤ c && c ≤ 'Z'

/-- `[a-z]`. -/
def lowerChar (c : Char) : Bool := 'a' ≤ c && c ≤ 'z'

/-- `[a-f0-9]`. -/
def hexLowerChar (c : Char) : Bool := digitChar c || ('a' ≤ c && c ≤ 'f')

/-- `\w`. -/
def wordChar (c : Char) : Bool := alnumChar c || c = '_'

/-- `[_-]`. -/
def dashUnderscore (c : Char) : Bool := c = '_' || c = '-'

/-- `.` (any character but newline). -/
def notNlChar (c : Char) : Bool := c ≠ '\n'

/-- Length of the maximal prefix of `s` whose characters satisfy `p`. -/
def takeRun (p : Char → Bool) : List Char → Nat
  | [] => 0
  | c :: t => if p c then takeRun p t + 1 else 0

/-- `[top, top-1, ..., lo]` (empty when `top < lo`): the repetition
counts a greedy quantifier tries, longest first. -/
def descRange (top lo : Nat) : List Nat :=
  (List.range (top + 1 - lo)).map (fun i => top - i)

/-- Drop a literal prefix, comparing case-insensitively when `ci`. -/
def dropPrefixCi? (ci : Bool) : List Char → List Char → Option (List Char)
  | [], s => some s
  | _ :: _, [] => none
  | p :: ps, c :: cs =>
    if (if ci then p.toLower = c.toLower else p = c)
    then dropPrefixCi? ci ps cs else none

/-- Greedy backtracking matcher: the number of characters of `s` consumed
by `items`, or `none`.  Quantifiers try longest counts first and
alternation branches are tried in order, as in JS. -/
def matchItems : List RItem → List Char → Option Nat
  | [], _ => some 0
  | .lit l :: rest, s =>
    match dropPrefix? l s with
    | none => none
    | some s2 => (matchItems rest s2).map (· + l.length)
  | .cls p lo hi :: rest, s =>
    let run := takeRun p s
    let top := match hi with | none => run | some h => min h run
    if run < lo then none
    else (descRange top lo).findSome? fun n =>
      (matchItems rest (s.drop n)).map (· + n)
  | .alts ci cases :: rest, s =>
    cases.findSome? fun a =>
      match dropPrefixCi? ci a s with
      | none => none
      | some s2 => (matchItems rest s2).map (· + a.length)
  | .endWordB :: rest, s =>
    if s.head?.all (fun c => !wordChar c) then matchItems rest s else none
  | .notAhead p :: rest, s =>
    if p s then none else matchItems rest s

/-- Leftmost match: the number of positions skipped, the length of the
greedy match there, and the input suffix at the match position. -/
def firstMatchAux (re : Regex) : List Char → Option (Nat × Nat × List Char)
  | [] =>
    match matchItems re [] with
    | some len => some (0, len, [])
    | none => none
  | c :: t =>
    match matchItems re (c :: t) with
    | some len => some (0, len, c :: t)
    | none => (firstMatchAux re t).map fun x => (x.1 + 1, x.2.1, x.2.2)

/-- `RegExp.prototype.test` (unanchored search). -/
def reTest (re : Regex) (s : List Char) : Bool :=
  (firstMatchAux re s).isSome

/-- A match restricted to position 0 (patterns anchored with `^`,
no `m` flag). -/
def reTestStart (re : Regex) (s : List Char) : Bool :=
  (matchItems re s).isSome

/-- A full match (patterns anchored with `^...$`, no `m` flag). -/
def reTestFull (re : Regex) (s : List Char) : Bool :=
  matchItems re s == some s.length

/-- The input suffixes at line starts other than position 0
(positions right after each newline). -/
def tailsAfterNl : List Char → List (List Char)
  | [] => []
  | c :: t => if c = '\n' then t :: tailsAfterNl t else tailsAfterNl t

/-- `RegExp.prototype.test` for a pattern of the form `/^.../m`:
the pattern must match at some line start. -/
def reTestM (re : Regex) (s : List Char) : Bool :=
  (s :: tailsAfterNl s).any fun suf => (matchItems re suf).isSome

/-- The matches found by the `g`-flag `exec` loop, left to right and
non-overlapping: pairs of match index and matched text.  `fuel` bounds
the number of matches (the patterns of the source never match the empty
string, so `s.length + 1` always suffices). -/
def execAllAux (re : Regex) : Nat → Nat → List Char → List (Nat × List Char)
  | 0, _, _ => []
  | fuel + 1, base, s =>
    match firstMatchAux re s with
    | none => []
    | some (skip, len, suf) =>
      (base + skip, suf.take len) ::
        execAllAux re fuel (base + skip + max len 1) (suf.drop (max len 1))

/-- All matches of `re` in `s` (the `while exec` loop of the scanners). -/
def execAll (re : Regex) (s : List Char) : List (Nat × List Char) :=
  execAllAux re (s.length + 1) 0 s

/-- A case-insensitive literal as a sequence of single-character
classes (for patterns carrying the `i` flag). -/
def ciLit (s : String) : List RItem :=
  s.data.map fun c => .cls (fun d => d.toLower = c.toLower) 1 (some 1)

/-- A case-sensitive literal item list. -/
def litR (s : String) : List RItem := [.lit s.data]

/-! ### maskSecret (scanners/api-keys.ts and scanners/config-secrets.ts)

The two scanners define `maskSecret` with the same body; note that both
branches of its `if` return the same expression.  JS `slice(0, 4)` is
`take 4`; `slice(-4)` takes the last four characters, or the whole string
when it is shorter than four characters, which is `drop (length - 4)`
with truncated subtraction. -/

/-- Mask a secret, keeping only the first and last four characters. -/
def maskSecret (secret : String) : String :=
  if secret.length ≤ 12 then
    ⟨secret.data.take 4 ++ ['.', '.', '.'] ++
      secret.data.drop (secret.data.length - 4)⟩
  else
    ⟨secret.data.take 4 ++ ['.', '.', '.'] ++
      secret.data.drop (secret.data.length - 4)⟩

/-! ### Credential pattern detector (scanners/api-keys.ts) -/

/-- JS `String.prototype.toUpperCase` (ASCII). -/
def toUpperL (s : List Char) : List Char :=
  s.map Char.toUpper

/-- One entry of the credential pattern catalog (`KeyPattern` of
types.ts). -/
structure KeyPattern where
  name : String
  service : String
  pattern : Regex
  severity : Severity
  placeholderPattern : Option (List Char → Bool) := none

namespace ApiKeysScanner

/-- `[_-]?`. -/
def dashOpt : RItem := .cls dashUnderscore 0 (some 1)

/-- The shared generic placeholder signatures of `isPlaceholder`:
`/your[_-]?.*[_-]?key/i`, `/xxx+/i`, `/placeholder/i`, `/example/i`,
`/test[_-]?key/i`, `/dummy/i`, `/fake/i`, `/sample/i`. -/
def commonPlaceholders : List Regex :=
  [ ciLit "your" ++ [dashOpt, .cls notNlChar 0 none, dashOpt] ++ ciLit "key",
    ciLit "xx" ++ [.cls (fun c => c.toLower = 'x') 1 none],
    ciLit "placeholder",
    ciLit "example",
    ciLit "test" ++ [dashOpt] ++ ciLit "key",
    ciLit "dummy",
    ciLit "fake",
    ciLit "sample" ]

/-- `isPlaceholder` of scanners/api-keys.ts: the entry's own placeholder
pattern, or one of the shared generic signatures, matches the text. -/
def isPlaceholder (m : List Char) (pattern : Option (List Char → Bool)) : Bool :=
  (match pattern with | some p => p m | none => false)
    || commonPlaceholders.any fun re => reTest re m

/-- The OpenAI entry's `placeholderPattern`
`/sk-your|sk-xxx|sk-test|sk-example/i` (an unanchored alternation of
literals: the text contains one of them, case-insensitively). -/
def openAIPlaceholder (m : List Char) : Bool :=
  reTest (ciLit "sk-your") m || reTest (ciLit "sk-xxx") m
    || reTest (ciLit "sk-test") m || reTest (ciLit "sk-example") m

/-- The OpenAI catalog entry (`/sk-[a-zA-Z0-9]{48}/g`). -/
def openAIKeyPattern : KeyPattern :=
  { name := "openAI"
    service := "OpenAI"
    pattern := [.lit ['s', 'k', '-'], .cls alnumChar 48 (some 48)]
    severity := .critical
    placeholderPattern := some openAIPlaceholder }

/-- The credential pattern catalog `KEY_PATTERNS` of
scanners/api-keys.ts, each regular expression transcribed into the
engine.  The AWS secret key entry is absent in the source (removed, per
its comment, for causing false positives). -/
def KEY_PATTERNS : List KeyPattern :=
  [ { name := "openRouter", service := "OpenRouter"
      pattern := litR "sk-or-v1-" ++ [.cls alnumChar 64 (some 64)]
      severity := .critical },
    openAIKeyPattern,
    { name := "anthropic", service := "Anthropic"
      pattern := litR "sk-ant-" ++
        [.cls (fun c => alnumChar c || c = '-' || c = '_') 95 (some 95)]
      severity := .critical },
    { name := "slackBotToken", service := "Slack Bot Token"
      pattern := litR "xoxb-" ++
        [.cls digitChar 10 (some 13), .lit ['-'], .cls digitChar 10 (some 13),
         .lit ['-'], .cls alnumChar 24 (some 24)]
      severity := .critical },
    { name := "slackAppToken", service := "Slack App Token"
      pattern := litR "xapp-" ++
        [.cls digitChar 1 (some 1), .lit ['-'],
         .cls (fun c => upperChar c || digitChar c) 1 none, .lit ['-'],
         .cls digitChar 1 none, .lit ['-'], .cls hexLowerChar 64 (some 64)]
      severity := .critical },
    { name := "slackUserToken", service := "Slack User Token"
      pattern := litR "xoxp-" ++
        [.cls digitChar 10 (some 13), .lit ['-'], .cls digitChar 10 (some 13),
         .lit ['-'], .cls digitChar 10 (some 13), .lit ['-'],
         .cls hexLowerChar 32 (some 32)]
      severity := .critical },
    { name := "awsAccessKey", service := "AWS Access Key"
      pattern := litR "AKIA" ++
        [.cls (fun c => digitChar c || upperChar c) 16 (some 16)]
      severity := .critical },
    { name := "gcpApiKey", service := "Google Cloud API Key"
      pattern := litR "AIza" ++
        [.cls (fun c => alnumChar c || c = '_' || c = '-') 35 (some 35)]
      severity := .critical },
    { name := "githubToken", service := "GitHub Token"
      pattern := litR "gh" ++
        [.cls (fun c => c = 'p' || c = 'o' || c = 'u' || c = 's' || c = 'r') 1 (some 1),
         .lit ['_'], .cls (fun c => alnumChar c || c = '_') 36 (some 255)]
      severity := .critical },
    { name := "githubOAuth", service := "GitHub OAuth"
      pattern := litR "gho_" ++ [.cls (fun c => alnumChar c || c = '_') 36 (some 36)]
      severity := .critical },
    { name := "braveSearch", service := "Brave Search API"
      pattern := litR "BSA" ++ [.cls alnumChar 20 none]
      severity := .high },
    { name := "stripeKey", service := "Stripe API Key"
      pattern := litR "sk_live_" ++ [.cls alnumChar 24 none]
      severity := .critical },
    { name := "stripeTestKey", service := "Stripe Test Key"
      pattern := litR "sk_test_" ++ [.cls alnumChar 24 none]
      severity := .medium },
    { name := "twilioKey", service := "Twilio API Key"
      pattern := litR "SK" ++ [.cls hexLowerChar 32 (some 32)]
      severity := .critical },
    { name := "sendgridKey", service := "SendGrid API Key"
      pattern := litR "SG." ++
        [.cls (fun c => alnumChar c || c = '_' || c = '-') 22 (some 22), .lit ['.'],
         .cls (fun c => alnumChar c || c = '_' || c = '-') 43 (some 43)]
      severity := .critical },
    { name := "mongodbUri", service := "MongoDB Connection String"
      pattern := litR "mongodb" ++ [.alts false [['+', 's', 'r', 'v'], []]] ++
        litR "://" ++
        [.cls (· ≠ ':') 1 none, .lit [':'], .cls (· ≠ '@') 1 none, .lit ['@'],
         .cls (· ≠ '/') 1 none]
      severity := .critical },
    { name := "postgresUri", service := "PostgreSQL Connection String"
      pattern := litR "postgres" ++ [.alts false [['q', 'l'], []]] ++
        litR "://" ++
        [.cls (· ≠ ':') 1 none, .lit [':'], .cls (· ≠ '@') 1 none, .lit ['@'],
         .cls (· ≠ '/') 1 none]
      severity := .critical },
    { name := "privateKey", service := "Private Key"
      pattern := litR "-----BEGIN " ++
        [.alts false
          [['R','S','A',' '], ['E','C',' '], ['O','P','E','N','S','S','H',' '],
           ['D','S','A',' '], []]] ++ litR "PRIVATE KEY-----"
      severity := .critical } ]

end ApiKeysScanner

/-- Index of the last occurrence of `c` in `l`
(JS `String.prototype.lastIndexOf`; `none` stands for `-1`). -/
def lastIndexOfChar? (c : Char) (l : List Char) : Option Nat :=
  match l with
  | [] => none
  | a :: t =>
    match lastIndexOfChar? c t with
    | some p => some (p + 1)
    | none => if a = c then some 0 else none

namespace ApiKeysScanner

/-- `SKIP_EXTENSIONS` of scanners/api-keys.ts. -/
def SKIP_EXTENSIONS : List String :=
  [".png", ".jpg", ".jpeg", ".gif", ".ico", ".svg",
   ".woff", ".woff2", ".ttf", ".eot",
   ".zip", ".tar", ".gz", ".rar",
   ".pdf", ".doc", ".docx",
   ".exe", ".dll", ".so", ".dylib",
   ".lock", ".lockb"]

/-- `SKIP_FILES` of scanners/api-keys.ts. -/
def SKIP_FILES : List String :=
  ["package-lock.json", "yarn.lock", "pnpm-lock.yaml", "bun.lockb",
   "Cargo.lock", "Gemfile.lock", "composer.lock", "poetry.lock"]

/-- `SKIP_DIRS` of scanners/api-keys.ts. -/
def SKIP_DIRS : List String :=
  ["node_modules", ".git", "dist", "build", ".next", "coverage",
   "__pycache__", ".venv", "venv"]

/-- `shouldSkip` of scanners/api-keys.ts.  `substring(lastIndexOf('.'))`
is the whole path when there is no dot (`substring(-1)` clamps to 0). -/
def shouldSkip (filePath : String) : Bool :=
  let ext : List Char :=
    match lastIndexOfChar? '.' filePath.data with
    | none => filePath.data
    | some i => filePath.data.drop i
  if SKIP_EXTENSIONS.contains ⟨toLowerL ext⟩ then true
  else
    let fileName : List Char := (jsSplit '/' filePath.data).getLastD []
    if SKIP_FILES.contains ⟨fileName⟩ then true
    else (jsSplit '/' filePath.data).any fun part => SKIP_DIRS.contains ⟨part⟩

/-- `scanContent` of scanners/api-keys.ts: for every catalog entry, every
non-overlapping match that is not judged a placeholder becomes a finding
with a line/column computed from the text before the match and a masked
excerpt.  (The source's `lineContent` local is computed but unused.) -/
def scanContent (filePath : String) (content : String) : List Finding :=
  KEY_PATTERNS.flatMap fun keyPattern =>
    (execAll keyPattern.pattern content.data).filterMap fun m =>
      if isPlaceholder m.2 keyPattern.placeholderPattern then none
      else
        let beforeMatch := content.data.take m.1
        let lineNumber := countNl beforeMatch + 1
        let column :=
          match lastNlPos? beforeMatch with
          | none => m.1 + 1
          | some p => m.1 - p
        some
          { scanner := "api-keys"
            severity := keyPattern.severity
            title := "Exposed " ++ keyPattern.service ++ " API Key"
            description := "Found a " ++ keyPattern.service ++
              " API key. This secret should be stored in environment variables or a secrets manager, not in source code."
            file := filePath
            line := some lineNumber
            column := some column
            matchText := some (maskSecret ⟨m.2⟩)
            fix := some
              ("Move this secret to an environment variable (e.g., .env file) and reference it as process.env."
                ++ ⟨toUpperL keyPattern.name.data⟩)
            cwe := some "CWE-798" }

/-- `ApiKeysScanner.scan`: every discovered file that is not skipped and
can be read is scanned; unreadable files are skipped (the source catches
and continues). -/
def scan (context : ScanContext) : List Finding :=
  context.files.flatMap fun filePath =>
    if shouldSkip filePath then []
    else
      match context.readFile filePath with
      | none => []
      | some content => scanContent filePath content

end ApiKeysScanner

/-- The `api-keys` scanner object. -/
def apiKeysScanner : Scanner :=
  { name := "api-keys"
    description := "Detects exposed API keys and secrets"
    scan := ApiKeysScanner.scan }

/-! ### Structured-config secret detector (scanners/config-secrets.ts) -/

/-- A parsed JSON value.  Numbers keep their raw token text (the scanner
only ever inspects string values), objects are entry lists in property
order. -/
inductive Json where
  | str (s : String)
  | num (raw : String)
  | jsonBool (b : Bool)
  | null
  | arr (items : List Json)
  | obj (fields : List (String × Json))
deriving Repr

/-- Insert an object member the way `JSON.parse` does: a duplicate key
keeps its first position but takes the later value. -/
def insertField (fields : List (String × Json)) (key : String) (v : Json) :
    List (String × Json) :=
  match fields with
  | [] => [(key, v)]
  | (k, w) :: rest =>
    if k = key then (k, v) :: rest else (k, w) :: insertField rest key v

/-- JSON whitespace. -/
def jsonWs (c : Char) : Bool :=
  c = ' ' || c = '\t' || c = '\n' || c = '\r'

/-- Skip JSON whitespace. -/
def skipWs (s : List Char) : List Char :=
  s.dropWhile jsonWs

/-- Decode one string escape after a backslash; returns the decoded
character and the remaining input. -/
def parseEscape (s : List Char) : Option (Char × List Char) :=
  match s with
  | '"' :: t => some ('"', t)
  | '\\' :: t => some ('\\', t)
  | '/' :: t => some ('/', t)
  | 'b' :: t => some ('\x08', t)
  | 'f' :: t => some ('\x0c', t)
  | 'n' :: t => some ('\n', t)
  | 'r' :: t => some ('\r', t)
  | 't' :: t => some ('\t', t)
  | 'u' :: a :: b :: c :: d :: t =>
    let hexVal (x : Char) : Option Nat :=
      if digitChar x then some (x.toNat - '0'.toNat)
      else if 'a' ≤ x && x ≤ 'f' then some (x.toNat - 'a'.toNat + 10)
      else if 'A' ≤ x && x ≤ 'F' then some (x.toNat - 'A'.toNat + 10)
      else none
    match hexVal a, hexVal b, hexVal c, hexVal d with
    | some ha, some hb, some hc, some hd =>
      some (Char.ofNat (((ha * 16 + hb) * 16 + hc) * 16 + hd), t)
    | _, _, _, _ => none
  | _ => none

/-- Parse the body of a JSON string (after the opening quote), returning
the decoded characters and the input after the closing quote. -/
def parseStringBody (fuel : Nat) (s : List Char) : Option (List Char × List Char) :=
  match fuel with
  | 0 => none
  | fuel + 1 =>
    match s with
    | [] => none
    | '"' :: t => some ([], t)
    | '\\' :: t =>
      match parseEscape t with
      | none => none
      | some (c, t2) =>
        (parseStringBody fuel t2).map fun (cs, rest) => (c :: cs, rest)
    | c :: t =>
      (parseStringBody fuel t).map fun (cs, rest) => (c :: cs, rest)

/-- Characters a number token may contain. -/
def numChar (c : Char) : Bool :=
  digitChar c || c = '-' || c = '+' || c = '.' || c = 'e' || c = 'E'

mutual

/-- A fuelled recursive-descent parser for `JSON.parse`, the platform
facility the scanner calls; `parseJsonValue` parses one value and returns
the remaining input.  (Number tokens are collected loosely; the scanner
never inspects them.) -/
def parseJsonValue (fuel : Nat) (s : List Char) : Option (Json × List Char) :=
  match fuel with
  | 0 => none
  | fuel + 1 =>
    match skipWs s with
    | [] => none
    | '"' :: t =>
      (parseStringBody (t.length + 1) t).map fun (cs, rest) => (Json.str ⟨cs⟩, rest)
    | '[' :: t =>
      match skipWs t with
      | ']' :: t2 => some (Json.arr [], t2)
      | t2 => parseJsonElems fuel t2 []
    | '{' :: t =>
      match skipWs t with
      | '}' :: t2 => some (Json.obj [], t2)
      | t2 => parseJsonMembers fuel t2 []
    | 't' :: t =>
      (dropPrefix? ['r','u','e'] t).map fun rest => (Json.jsonBool true, rest)
    | 'f' :: t =>
      (dropPrefix? ['a','l','s','e'] t).map fun rest => (Json.jsonBool false, rest)
    | 'n' :: t =>
      (dropPrefix? ['u','l','l'] t).map fun rest => (Json.null, rest)
    | c :: t =>
      if digitChar c || c = '-' then
        let raw := c :: t.takeWhile numChar
        some (Json.num ⟨raw⟩, t.dropWhile numChar)
      else none

/-- Parse the elements of a non-empty array. -/
def parseJsonElems (fuel : Nat) (s : List Char) (acc : List Json) :
    Option (Json × List Char) :=
  match fuel with
  | 0 => none
  | fuel + 1 =>
    match parseJsonValue fuel s with
    | none => none
    | some (v, rest) =>
      match skipWs rest with
      | ',' :: t => parseJsonElems fuel t (acc ++ [v])
      | ']' :: t => some (Json.arr (acc ++ [v]), t)
      | _ => none

/-- Parse the members of a non-empty object. -/
def parseJsonMembers (fuel : Nat) (s : List Char) (acc : List (String × Json)) :
    Option (Json × List Char) :=
  match fuel with
  | 0 => none
  | fuel + 1 =>
    match skipWs s with
    | '"' :: t =>
      match parseStringBody (t.length + 1) t with
      | none => none
      | some (key, rest) =>
        match skipWs rest with
        | ':' :: t2 =>
          match parseJsonValue fuel t2 with
          | none => none
          | some (v, rest2) =>
            let acc2 := insertField acc ⟨key⟩ v
            match skipWs rest2 with
            | ',' :: t3 => parseJsonMembers fuel t3 acc2
            | '}' :: t3 => some (Json.obj acc2, t3)
            | _ => none
        | _ => none
    | _ => none

end

/-- `JSON.parse`: parse a whole input, requiring only trailing
whitespace after the value; `none` models the thrown `SyntaxError`. -/
def JSON_parse (content : String) : Option Json :=
  match parseJsonValue (content.length + 1) content.data with
  | some (v, rest) => if (skipWs rest).isEmpty then some v else none
  | none => none

namespace ConfigSecretsScanner

/-- `CONFIG_FILES` of scanners/config-secrets.ts. -/
def CONFIG_FILES : List String :=
  ["openclaw.json", "config.json", "settings.json", "credentials.json",
   "secrets.json", ".clawrc", ".clawrc.json"]

/-- `isPlaceholder` of scanners/config-secrets.ts: the seventeen
placeholder signatures, transcribed.  Anchored patterns (`^...`) must
match at position 0; `/^<.*>$/` must match the whole value; the
template-variable signatures look for a literal `$`-brace or double-brace
wrapper anywhere in the value. -/
def isPlaceholder (value : String) : Bool :=
  let v := value.data
  reTestStart (ciLit "your" ++ [.cls dashUnderscore 1 (some 1)]) v
    || reTest (ciLit "xx" ++ [.cls (fun c => c.toLower = 'x') 1 none]) v
    || reTest (ciLit "placeholder") v
    || reTest (ciLit "example") v
    || reTest (ciLit "test" ++ [ApiKeysScanner.dashOpt] ++ ciLit "key") v
    || reTest (ciLit "dummy") v
    || reTest (ciLit "fake") v
    || reTest (ciLit "sample") v
    || reTest [.lit ['$', Char.ofNat 123], .cls notNlChar 0 none,
               .lit [Char.ofNat 125]] v
    || reTest [.lit [Char.ofNat 123, Char.ofNat 123], .cls notNlChar 0 none,
               .lit [Char.ofNat 125, Char.ofNat 125]] v
    || reTestFull [.lit ['<'], .cls notNlChar 0 none, .lit ['>']] v
    || reTestStart (ciLit "todo") v
    || reTestStart (ciLit "fixme") v
    || reTestStart (ciLit "change" ++ [ApiKeysScanner.dashOpt] ++ ciLit "me") v
    || reTestStart (ciLit "insert" ++ [.cls dashUnderscore 1 (some 1)]) v
    || reTestStart (ciLit "put" ++ [.cls dashUnderscore 1 (some 1)]) v
    || reTestStart (ciLit "replace" ++ [.cls dashUnderscore 1 (some 1)]) v

/-- `isSensitiveKey` of scanners/config-secrets.ts: the key name ends in
"key"/"token", contains "secret"/"password"/"credential"/"auth"/
"bearer"/"oauth"/"jwt"/"private"/"signing", matches `api[_-]?key`, or
starts with `sk[_-]`/`pk[_-]` (all case-insensitive). -/
def isSensitiveKey (key : String) : Bool :=
  let k := key.data
  endsWithL (toLowerL k) "key".data
    || endsWithL (toLowerL k) "token".data
    || strIncludes (toLowerL k) "secret".data
    || strIncludes (toLowerL k) "password".data
    || strIncludes (toLowerL k) "credential".data
    || reTest (ciLit "api" ++ [ApiKeysScanner.dashOpt] ++ ciLit "key") k
    || strIncludes (toLowerL k) "auth".data
    || reTestStart (ciLit "sk" ++ [.cls dashUnderscore 1 (some 1)]) k
    || reTestStart (ciLit "pk" ++ [.cls dashUnderscore 1 (some 1)]) k
    || strIncludes (toLowerL k) "bearer".data
    || strIncludes (toLowerL k) "oauth".data
    || strIncludes (toLowerL k) "jwt".data
    || strIncludes (toLowerL k) "private".data
    || strIncludes (toLowerL k) "signing".data

mutual

/-- `extractStrings` of scanners/config-secrets.ts: flatten a parsed
config into `(path, value)` pairs for every string value, with
dotted/bracketed addresses. -/
def extractStrings (obj : Json) (path : String) : List (String × String) :=
  match obj with
  | .str v => [(path, v)]
  | .arr items => extractArr items path 0
  | .obj fields => extractObj fields path
  | _ => []

/-- The `obj.forEach((item, index) => ...)` branch of `extractStrings`. -/
def extractArr (items : List Json) (path : String) (index : Nat) :
    List (String × String) :=
  match items with
  | [] => []
  | item :: rest =>
    extractStrings item (path ++ "[" ++ Nat.repr index ++ "]")
      ++ extractArr rest path (index + 1)

/-- The `Object.entries(obj)` branch of `extractStrings`. -/
def extractObj (fields : List (String × Json)) (path : String) :
    List (String × String) :=
  match fields with
  | [] => []
  | (key, v) :: rest =>
    extractStrings v (if path = "" then key else path ++ "." ++ key)
      ++ extractObj rest path

end

/-- `getSeverity` of scanners/config-secrets.ts: catalog entries in its
`criticalPatterns` name list report as critical, all others as high. -/
def getSeverity (patternName : String) : Severity :=
  let criticalPatterns : List String :=
    ["openRouter", "openAI", "anthropic", "slackBotToken", "slackAppToken",
     "awsAccessKey", "githubToken", "stripeKey", "mongodbUri", "postgresUri",
     "privateKey"]
  if criticalPatterns.contains patternName then .critical else .high

/-- `looksLikeSecret` of scanners/config-secrets.ts.  The source's
floating-point ratio test `alnum/length >= 0.7` is the exact comparison
`10 * alnum >= 7 * length` (for realistic lengths the two never
differ). -/
def looksLikeSecret (value : String) : Bool :=
  if value.length < 16 then false
  else
    let alnumCount := value.data.countP alnumChar
    if 10 * alnumCount < 7 * value.length then false
    else
      let hasUppercase := value.data.any upperChar
      let hasLowercase := value.data.any lowerChar
      let hasNumbers := value.data.any digitChar
      if strIncludes value.data "://".data
          || (dropPrefix? ['/'] value.data).isSome
          || strIncludes value.data "..".data then false
      else (hasUppercase && hasLowercase)
        || (hasNumbers && decide (20 ≤ value.length))

/-- `findLineNumber` of scanners/config-secrets.ts: line of the first
occurrence of the value in the raw content, `1` when absent. -/
def findLineNumber (content value : String) : Nat :=
  match indexOfSub? value.data content.data with
  | none => 1
  | some index => countNl (content.data.take index) + 1

/-- The finding pushed when a catalog entry matches a config value.
(The source also computes `isSensitivePath` and an inner `keyName` here,
both unused.) -/
def mkCatalogFinding (filePath content path value : String)
    (pattern : KeyPattern) : Finding :=
  { scanner := "config-secrets"
    severity := getSeverity pattern.name
    title := pattern.service ++ " API Key in Config File"
    description := "Found a " ++ pattern.service ++
      " API key embedded in configuration file at path \"" ++ path ++
      "\". Secrets should not be stored in config files that may be committed to version control."
    file := filePath
    line := some (findLineNumber content value)
    matchText := some (maskSecret value)
    fix := some
      "Move this secret to a .env file and reference it using environment variable substitution. For OpenClaw configs, use \"$\x7bOPENROUTER_API_KEY\x7d\" syntax."
    cwe := some "CWE-312" }

/-- The catalog-matching step for one config value: the first catalog
entry whose pattern matches yields a finding, and the loop `break`s. -/
def catalogFinding (filePath content path value : String) : Option Finding :=
  (ApiKeysScanner.KEY_PATTERNS.find? fun pattern =>
      reTest pattern.pattern value.data).map
    (mkCatalogFinding filePath content path value)

/-- The lower-confidence finding pushed when a key name and value shape
look secret-like. -/
def mkHeuristicFinding (filePath content path value keyName : String) : Finding :=
  { scanner := "config-secrets"
    severity := .high
    title := "Potential Secret in Config: " ++ keyName
    description := "Found a value at \"" ++ path ++
      "\" that appears to be a secret based on its key name and format. Review if this should be moved to environment variables."
    file := filePath
    line := some (findLineNumber content value)
    matchText := some (maskSecret value)
    fix := some
      "Move this secret to a .env file and reference it using environment variable substitution."
    cwe := some "CWE-312" }

/-- The body of the `for (const { path, value } of strings)` loop of
`scanConfigFile`, threading the accumulated findings: skip short values
and placeholders, push at most one catalog finding (first matching entry
only), then push the heuristic finding unless a finding with the same
file and masked value was already recorded. -/
def processValue (filePath content : String) (findings : List Finding)
    (pv : String × String) : List Finding :=
  let path := pv.1
  let value := pv.2
  if value.length < 10 then findings
  else if isPlaceholder value then findings
  else
    let afterCatalog := findings ++ (catalogFinding filePath content path value).toList
    let keyName := String.mk ((jsSplit '.' path.data).getLastD [])
    if isSensitiveKey keyName && looksLikeSecret value then
      let alreadyReported := afterCatalog.any fun f =>
        f.file == filePath && f.matchText == some (maskSecret value)
      if alreadyReported then afterCatalog
      else afterCatalog ++ [mkHeuristicFinding filePath content path value keyName]
    else afterCatalog

/-- `scanConfigFile` of scanners/config-secrets.ts: parse the content as
JSON (skipping the file silently on parse failure) and process every
extracted string value. -/
def scanConfigFile (filePath content : String) : List Finding :=
  match JSON_parse content with
  | none => []
  | some config =>
    (extractStrings config "").foldl (processValue filePath content) []

/-- `ConfigSecretsScanner.scan`: only files whose basename is in
`CONFIG_FILES` are scanned; unreadable files are skipped. -/
def scan (context : ScanContext) : List Finding :=
  context.files.flatMap fun filePath =>
    let fileName := String.mk ((jsSplit '/' filePath.data).getLastD [])
    if !CONFIG_FILES.contains fileName then []
    else
      match context.readFile filePath with
      | none => []
      | some content => scanConfigFile filePath content

end ConfigSecretsScanner

/-- The `config-secrets` scanner object. -/
def configSecretsScanner : Scanner :=
  { name := "config-secrets"
    description := "Detects secrets embedded in configuration files"
    scan := ConfigSecretsScanner.scan }

/-! ### Container configuration auditor (scanners/docker.ts)

Each check's `pattern`/`antiPattern` is a `RegExp` in the source;
they are embedded as boolean tests on the content, each transcribed from
its regular expression.  Patterns written `/^.../m` must match at some
line start (`reTestM`); the rest are unanchored searches (`reTest`). -/

/-- One entry of a check table (`DockerCheck` of scanners/docker.ts);
patterns are embedded as content predicates. -/
structure DockerCheck where
  name : String
  pattern : String → Bool
  antiPattern : Option (String → Bool) := none
  severity : Severity
  title : String
  description : String
  fix : String
  cwe : String

namespace DockerScanner

/-- `DOCKER_FILES` of scanners/docker.ts. -/
def DOCKER_FILES : List String :=
  ["Dockerfile", "dockerfile", "docker-compose.yml", "docker-compose.yaml",
   "compose.yml", "compose.yaml"]

/-- `/^FROM\s+/m`. -/
def fromPattern (content : String) : Bool :=
  reTestM (litR "FROM" ++ [.cls jsWs 1 none]) content.data

/-- `/^USER\s+(?!root\b)(?!0\b)\w/m`: a `USER` instruction naming a
non-root user. -/
def nonRootUserPattern (content : String) : Bool :=
  reTestM
    (litR "USER" ++
      [.cls jsWs 1 none,
       .notAhead fun s => (matchItems (litR "root" ++ [.endWordB]) s).isSome,
       .notAhead fun s => (matchItems (litR "0" ++ [.endWordB]) s).isSome,
       .cls wordChar 1 (some 1)])
    content.data

/-- `/FROM\s+\S+:latest\b/i`. -/
def fromLatestPattern (content : String) : Bool :=
  reTest
    (ciLit "FROM" ++ [.cls jsWs 1 none, .cls (fun c => !jsWs c) 1 none] ++
      ciLit ":latest" ++ [.endWordB])
    content.data

/-- `/^ADD\s+(?!https?:)/m`. -/
def addPattern (content : String) : Bool :=
  reTestM
    (litR "ADD" ++
      [.cls jsWs 1 none,
       .notAhead fun s =>
         (matchItems (litR "http" ++ [.alts false [['s'], []], .lit [':']]) s).isSome])
    content.data

/-- `/ENV\s+\w*(KEY|TOKEN|SECRET|PASSWORD|CREDENTIAL|AUTH)\w*\s*[=\s]\s*["']?[A-Za-z0-9+\/=]{16,}/i`. -/
def envSecretPattern (content : String) : Bool :=
  reTest
    (ciLit "ENV" ++
      [.cls jsWs 1 none, .cls wordChar 0 none,
       .alts true
         ["KEY".data, "TOKEN".data, "SECRET".data, "PASSWORD".data,
          "CREDENTIAL".data, "AUTH".data],
       .cls wordChar 0 none, .cls jsWs 0 none,
       .cls (fun c => c = '=' || jsWs c) 1 (some 1), .cls jsWs 0 none,
       .cls (fun c => c = '"' || c.toNat = 39) 0 (some 1),
       .cls (fun c => alnumChar c || c = '+' || c = '/' || c = '=') 16 none])
    content.data

/-- `/curl\s+[^|]*\|\s*(ba)?sh/i`. -/
def curlBashPattern (content : String) : Bool :=
  reTest
    (ciLit "curl" ++
      [.cls jsWs 1 none, .cls (· ≠ '|') 0 none, .lit ['|'], .cls jsWs 0 none,
       .alts true ["ba".data, []]] ++ ciLit "sh")
    content.data

/-- `/COPY\s+[^\n]*\.(pem|key|crt|env)\b/i`. -/
def sensitiveCopyPattern (content : String) : Bool :=
  reTest
    (ciLit "COPY" ++
      [.cls jsWs 1 none, .cls notNlChar 0 none, .lit ['.'],
       .alts true ["pem".data, "key".data, "crt".data, "env".data],
       .endWordB])
    content.data

/-- `DOCKERFILE_CHECKS` of scanners/docker.ts. -/
def DOCKERFILE_CHECKS : List DockerCheck :=
  [ { name := "running-as-root"
      pattern := fromPattern
      antiPattern := some nonRootUserPattern
      severity := .high
      title := "Dockerfile Runs as Root"
      description := "No USER instruction found. Container will run as root by default, increasing attack surface."
      fix := "Add a USER instruction to run as a non-root user: \"USER nonroot\" or \"USER 1000\""
      cwe := "CWE-250" },
    { name := "using-latest-tag"
      pattern := fromLatestPattern
      severity := .medium
      title := "Using :latest Tag"
      description := "Using the :latest tag makes builds non-reproducible and could introduce unexpected changes."
      fix := "Pin to a specific version tag, e.g., \"FROM node:20-alpine\" instead of \"FROM node:latest\""
      cwe := "CWE-1357" },
    { name := "add-instead-of-copy"
      pattern := addPattern
      severity := .low
      title := "Using ADD Instead of COPY"
      description := "ADD has extra features (URL fetching, auto-extraction) that could introduce security issues. COPY is more explicit."
      fix := "Use COPY instead of ADD unless you specifically need URL fetching or auto-extraction."
      cwe := "CWE-829" },
    { name := "exposed-secrets-in-env"
      pattern := envSecretPattern
      severity := .critical
      title := "Hardcoded Secret in ENV"
      description := "Dockerfile contains a hardcoded secret in an ENV instruction. Secrets in Dockerfiles are visible in image layers."
      fix := "Use build arguments (ARG) or runtime environment variables. Never commit secrets to Dockerfiles."
      cwe := "CWE-798" },
    { name := "curl-bash-pattern"
      pattern := curlBashPattern
      severity := .high
      title := "Curl-Bash Installation Pattern"
      description := "Piping curl to bash is dangerous. Downloaded scripts could be tampered with or change unexpectedly."
      fix := "Download the script first, verify its checksum, then execute it."
      cwe := "CWE-829" },
    { name := "sensitive-copy"
      pattern := sensitiveCopyPattern
      severity := .high
      title := "Copying Sensitive Files"
      description := "Dockerfile copies potentially sensitive files (.pem, .key, .env). These files may contain secrets."
      fix := "Use Docker secrets, environment variables at runtime, or ensure these files are in .dockerignore."
      cwe := "CWE-312" } ]

/-- `/^\s+privileged:\s*true\b/m`. -/
def privilegedPattern (content : String) : Bool :=
  reTestM
    [.cls jsWs 1 none, .lit "privileged:".data, .cls jsWs 0 none,
     .lit "true".data, .endWordB]
    content.data

/-- `/\/var\/run\/docker\.sock/`. -/
def dockerSocketPattern (content : String) : Bool :=
  strIncludes content.data "/var/run/docker.sock".data

/-- `/ports:\s*\n(?:\s+-\s*["']?(?:0\.0\.0\.0:)?(\d+:\d+)["']?\s*\n?)+/m`.
Testing for one or more repetitions of the group is the same as testing
for one (nothing follows the `+`, and the group's trailing parts are all
optional), so the transcription uses a single group occurrence. -/
def externalPortPattern (content : String) : Bool :=
  reTest
    [.lit "ports:".data, .cls jsWs 0 none, .lit ['\n'], .cls jsWs 1 none,
     .lit ['-'], .cls jsWs 0 none, .cls (fun c => c = '"' || c.toNat = 39) 0 (some 1),
     .alts false ["0.0.0.0:".data, []],
     .cls digitChar 1 none, .lit [':'], .cls digitChar 1 none,
     .cls (fun c => c = '"' || c.toNat = 39) 0 (some 1),
     .cls jsWs 0 none, .alts false [['\n'], []]]
    content.data

/-- `/^\s+image:/m`. -/
def imagePattern (content : String) : Bool :=
  reTestM [.cls jsWs 1 none, .lit "image:".data] content.data

/-- `/^\s+read_only:\s*true\b/m`. -/
def readOnlyPattern (content : String) : Bool :=
  reTestM
    [.cls jsWs 1 none, .lit "read_only:".data, .cls jsWs 0 none,
     .lit "true".data, .endWordB]
    content.data

/-- `/no-new-privileges:\s*true/m`. -/
def noNewPrivilegesPattern (content : String) : Bool :=
  reTest
    [.lit "no-new-privileges:".data, .cls jsWs 0 none, .lit "true".data]
    content.data

/-- `/~\/\.[a-z]+|\/root\/|\/home\/\w+\/\.[a-z]+|\/etc\/(?!localtime|timezone)/`. -/
def sensitiveVolumePattern (content : String) : Bool :=
  reTest (litR "~/." ++ [.cls lowerChar 1 none]) content.data
    || strIncludes content.data "/root/".data
    || reTest
        (litR "/home/" ++ [.cls wordChar 1 none] ++ litR "/." ++
          [.cls lowerChar 1 none])
        content.data
    || reTest
        (litR "/etc/" ++
          [.notAhead fun s =>
            (dropPrefix? "localtime".data s).isSome
              || (dropPrefix? "timezone".data s).isSome])
        content.data

/-- `/image:\s*\S+:latest\b/i`. -/
def imageLatestPattern (content : String) : Bool :=
  reTest
    (ciLit "image:" ++ [.cls jsWs 0 none, .cls (fun c => !jsWs c) 1 none] ++
      ciLit ":latest" ++ [.endWordB])
    content.data

/-- `COMPOSE_CHECKS` of scanners/docker.ts. -/
def COMPOSE_CHECKS : List DockerCheck :=
  [ { name := "privileged-mode"
      pattern := privilegedPattern
      severity := .critical
      title := "Privileged Container Mode"
      description := "A service is running in privileged mode, giving it full access to the host system. This allows container escape and complete host compromise."
      fix := "Remove \"privileged: true\" unless absolutely necessary. Use specific capabilities instead with cap_add."
      cwe := "CWE-250" },
    { name := "docker-socket-mount"
      pattern := dockerSocketPattern
      severity := .critical
      title := "Docker Socket Mount"
      description := "A service mounts the Docker socket (/var/run/docker.sock). This allows the container to control Docker and escape to the host."
      fix := "Remove the Docker socket mount. If Docker access is needed, use Docker-in-Docker (dind) or a remote Docker host."
      cwe := "CWE-269" },
    { name := "external-port-binding"
      pattern := externalPortPattern
      severity := .high
      title := "Externally Exposed Port"
      description := "A service has ports exposed that default to 0.0.0.0 (all interfaces). This makes it accessible from outside the host."
      fix := "Bind to localhost only: \"127.0.0.1:PORT:PORT\" or use internal Docker networks."
      cwe := "CWE-668" },
    { name := "missing-read-only"
      pattern := imagePattern
      antiPattern := some readOnlyPattern
      severity := .high
      title := "Missing Read-Only Filesystem"
      description := "Services do not have read_only: true. An attacker could write malicious files if a container is compromised."
      fix := "Add \"read_only: true\" to services. Use tmpfs for directories that need writes (e.g., /tmp, /var/run)."
      cwe := "CWE-732" },
    { name := "missing-security-opt"
      pattern := imagePattern
      antiPattern := some noNewPrivilegesPattern
      severity := .medium
      title := "Missing No-New-Privileges"
      description := "Services are missing the no-new-privileges security option. Processes could escalate privileges using setuid binaries."
      fix := "Add \"security_opt: [no-new-privileges:true]\" to services."
      cwe := "CWE-269" },
    { name := "sensitive-volume-mount"
      pattern := sensitiveVolumePattern
      severity := .high
      title := "Sensitive Directory Mounted"
      description := "A sensitive directory (home dotfiles, /root, /etc) is mounted. Container compromise could access or modify host files."
      fix := "Use granular mounts for specific files needed, and mount as read-only (:ro) where possible."
      cwe := "CWE-732" },
    { name := "using-latest-tag"
      pattern := imageLatestPattern
      severity := .medium
      title := "Using :latest Tag"
      description := "Using the :latest tag makes builds non-reproducible and could introduce unexpected changes."
      fix := "Pin to a specific version tag, e.g., \"image: node:20-alpine\" instead of \"image: node:latest\""
      cwe := "CWE-1357" } ]

/-- The line-number search of `scanWithChecks`: the first line whose own
content matches the check's pattern, else line 1. -/
def findCheckLine (check : DockerCheck) (content : String) : Nat :=
  let lines := jsSplit '\n' content.data
  match lines.findIdx? (fun line => check.pattern ⟨line⟩) with
  | some i => i + 1
  | none => 1

/-- The finding emitted for one triggered check. -/
def mkDockerFinding (filePath : String) (check : DockerCheck)
    (lineNumber : Nat) : Finding :=
  { scanner := "docker"
    severity := check.severity
    title := check.title
    description := check.description
    file := filePath
    line := some lineNumber
    fix := some check.fix
    cwe := some check.cwe }

/-- `scanWithChecks` of scanners/docker.ts: each check emits one finding
when its pattern matches the content and its anti-pattern (if any) does
not. -/
def scanWithChecks (filePath content : String) (checks : List DockerCheck) :
    List Finding :=
  checks.flatMap fun check =>
    if !check.pattern content then []
    else if (check.antiPattern.map fun ap => ap content).getD false then []
    else [mkDockerFinding filePath check (findCheckLine check content)]

/-- `DockerScanner.scan`: files named like Docker or compose files are
audited against the applicable check table; unreadable files are
skipped. -/
def scan (context : ScanContext) : List Finding :=
  context.files.flatMap fun filePath =>
    let fileName := String.mk ((jsSplit '/' filePath.data).getLastD [])
    if !DOCKER_FILES.any (fun f => toLowerL fileName.data = toLowerL f.data) then []
    else
      match context.readFile filePath with
      | none => []
      | some content =>
        if toLowerL fileName.data = "dockerfile".data then
          scanWithChecks filePath content DOCKERFILE_CHECKS
        else
          scanWithChecks filePath content COMPOSE_CHECKS

end DockerScanner

/-- The `docker` scanner object. -/
def dockerScanner : Scanner :=
  { name := "docker"
    description := "Detects security misconfigurations in Docker and docker-compose files"
    scan := DockerScanner.scan }

/-! ### Ignore-coverage analyzer (scanners/gitignore.ts) -/

/-- One entry of the required-ignore catalog (`RequiredIgnore` of
scanners/gitignore.ts). -/
structure RequiredIgnore where
  pattern : String
  description : String
  severity : Severity
  checkFiles : Option (List String) := none
deriving DecidableEq, Repr

namespace GitignoreScanner

/-- The `REQUIRED_IGNORES` catalog of scanners/gitignore.ts. -/
def REQUIRED_IGNORES : List RequiredIgnore :=
  [ { pattern := ".env"
      description := "Environment files often contain API keys and secrets"
      severity := .critical
      checkFiles := some [".env", ".env.local", ".env.production"] },
    { pattern := ".env.*"
      description := "Environment variant files (.env.local, .env.production) contain secrets"
      severity := .critical },
    { pattern := "*.pem"
      description := "PEM files may contain private keys"
      severity := .critical },
    { pattern := "*.key"
      description := "Key files contain private cryptographic keys"
      severity := .critical },
    { pattern := "*.p12"
      description := "P12/PKCS12 files contain certificates and private keys"
      severity := .high },
    { pattern := "*.pfx"
      description := "PFX files contain certificates and private keys"
      severity := .high },
    { pattern := "secrets/"
      description := "Secrets directories should never be committed"
      severity := .critical
      checkFiles := some ["secrets/"] },
    { pattern := ".secrets/"
      description := "Hidden secrets directories should never be committed"
      severity := .critical },
    { pattern := "openclaw.json"
      description := "OpenClaw config may contain embedded API keys"
      severity := .high
      checkFiles := some ["openclaw.json"] },
    { pattern := "claude.json"
      description := "Claude config may contain API keys"
      severity := .high },
    { pattern := "credentials.json"
      description := "Credentials file contains authentication secrets"
      severity := .critical },
    { pattern := "*.credentials"
      description := "Credential files should not be committed"
      severity := .high },
    { pattern := ".aws/"
      description := "AWS config directory contains credentials"
      severity := .critical },
    { pattern := ".ssh/"
      description := "SSH directory contains private keys"
      severity := .critical },
    { pattern := "id_rsa"
      description := "SSH private key"
      severity := .critical },
    { pattern := "id_ed25519"
      description := "SSH private key"
      severity := .critical },
    { pattern := "*.sqlite"
      description := "SQLite databases may contain sensitive data"
      severity := .medium },
    { pattern := "*.db"
      description := "Database files may contain sensitive data"
      severity := .medium },
    { pattern := ".idea/"
      description := "IDE config may contain project-specific secrets"
      severity := .low },
    { pattern := ".vscode/settings.json"
      description := "VS Code settings may contain project secrets"
      severity := .low },
    { pattern := "*.log"
      description := "Log files may contain sensitive information"
      severity := .low } ]

/-- `parseGitignore` of scanners/gitignore.ts: trimmed non-comment,
non-blank lines, each also added with `/` and `**/` prefixes unless it
already starts with `*` or `/`.  The source's `Set` is embedded as the
insertion-order list (only membership and iteration are used, so
duplicates are irrelevant). -/
def parseGitignore (content : String) : List String :=
  (jsSplit '\n' content.data).flatMap fun line =>
    let trimmed := trimL line
    if trimmed = [] || (dropPrefix? ['#'] trimmed).isSome then []
    else if !(dropPrefix? ['*'] trimmed).isSome
        && !(dropPrefix? ['/'] trimmed).isSome then
      [⟨trimmed⟩, ⟨'/' :: trimmed⟩, ⟨'*' :: '*' :: '/' :: trimmed⟩]
    else [(⟨trimmed⟩ : String)]

/-- `isPatternCovered` of scanners/gitignore.ts: direct, `/`-prefixed or
`**/`-prefixed membership, or one of the ad-hoc equivalence rules.
(The source's `basePattern` local is computed but unused.) -/
def isPatternCovered (pattern : String) (ignorePatterns : List String) : Bool :=
  if ignorePatterns.contains pattern then true
  else if ignorePatterns.contains ⟨'/' :: pattern.data⟩ then true
  else if ignorePatterns.contains ⟨'*' :: '*' :: '/' :: pattern.data⟩ then true
  else
    ignorePatterns.any fun ignorePattern =>
      ignorePattern == pattern
        || ((dropPrefix? ".env".data pattern.data).isSome
            && strIncludes ignorePattern.data ".env".data)
        || (endsWithL pattern.data ['/'] && endsWithL ignorePattern.data ['/']
            && strIncludes ignorePattern.data (pattern.data.dropLast))

/-- The single critical finding emitted when a Git repository has no
`.gitignore` at all. -/
def missingGitignoreFinding : Finding :=
  { scanner := "gitignore"
    severity := .critical
    title := "Missing .gitignore File"
    description := "This Git repository has no .gitignore file. Sensitive files could be accidentally committed."
    file := ".gitignore"
    fix := some "Create a .gitignore file with appropriate entries for your project type. Use https://gitignore.io for templates."
    cwe := some "CWE-200" }

/-- Whether one of the entry's `checkFiles` exists (the source's
break-on-first-hit loop). -/
def checkFileExists (context : ScanContext) (required : RequiredIgnore) : Bool :=
  (required.checkFiles.getD []).any context.fileExists

/-- The effective severity of an uncovered entry: the configured
severity when a check file exists, otherwise critical softens to high
and every other severity passes through. -/
def effectiveSeverity (required : RequiredIgnore) (fileExists : Bool) : Severity :=
  if fileExists then required.severity
  else if required.severity = .critical then .high else required.severity

/-- The finding emitted for one uncovered required entry. -/
def mkRequiredFinding (required : RequiredIgnore) (fileExists : Bool) : Finding :=
  { scanner := "gitignore"
    severity := effectiveSeverity required fileExists
    title := "Missing Gitignore: " ++ required.pattern
    description := "Pattern \"" ++ required.pattern ++
      "\" is not in .gitignore. " ++ required.description ++ "." ++
      (if fileExists then " WARNING: This file exists in your repository!" else "")
    file := ".gitignore"
    fix := some ("Add \"" ++ required.pattern ++ "\" to your .gitignore file")
    cwe := some "CWE-200" }

/-- `GitignoreScanner.scan`: with no `.gitignore`, report only when a
`.git` marker exists; otherwise parse the ignore file (skipping the
whole detector when it cannot be read) and report every uncovered
required entry at its effective severity. -/
def scan (context : ScanContext) : List Finding :=
  if !context.fileExists ".gitignore" then
    if context.fileExists ".git" then [missingGitignoreFinding] else []
  else
    match context.readFile ".gitignore" with
    | none => []
    | some gitignoreContent =>
      let ignorePatterns := parseGitignore gitignoreContent
      REQUIRED_IGNORES.flatMap fun required =>
        if isPatternCovered required.pattern ignorePatterns then []
        else
          let fileExists := checkFileExists context required
          [mkRequiredFinding required fileExists]

end GitignoreScanner

/-- The `gitignore` scanner object. -/
def gitignoreScanner : Scanner :=
  { name := "gitignore"
    description := "Detects missing gitignore entries for sensitive files"
    scan := GitignoreScanner.scan }

/-! ### Engine: discovery, context and aggregation (packages/core/src/index.ts) -/

/-- A filesystem entry under the scan root.  A directory with
`readable := false` is one whose `readdir` fails (permission error,
deleted mid-scan); `file name none` is a file whose `readFile` fails. -/
inductive FSEntry where
  | file (name : String) (content : Option String)
  | dir (name : String) (readable : Bool) (entries : List FSEntry)

/-- The name of an entry. -/
def FSEntry.name : FSEntry → String
  | .file n _ => n
  | .dir n _ _ => n

/-- `DEFAULT_SCANNERS` of packages/core/src/index.ts, in source order. -/
def DEFAULT_SCANNERS : List Scanner :=
  [apiKeysScanner, configSecretsScanner, dockerScanner, gitignoreScanner]

/-- `DEFAULT_EXCLUDES` of packages/core/src/index.ts. -/
def DEFAULT_EXCLUDES : List String :=
  ["node_modules", ".git", "dist", "build", ".next", "coverage",
   "__pycache__", ".venv", "venv", "*.lock", "*.lockb"]

/-- The anchored matcher compiled from a wildcard exclude pattern:
`new RegExp('^' + pattern.replace(/\*\/g, '.*') + '$')`.  `*` becomes
`.*` (any characters except newline) and a literal `.` in the pattern is
the regex any-character-but-newline (the default patterns contain no
other regex metacharacters). -/
def globMatch : List Char → List Char → Bool
  | [], s => s.isEmpty
  | '*' :: ps, s =>
    (List.range (takeRun (· ≠ '\n') s + 1)).any fun i => globMatch ps (s.drop i)
  | p :: ps, c :: cs =>
    (if p = '.' then c ≠ '\n' else p = c) && globMatch ps cs
  | _ :: _, [] => false

/-- The exclude test of `getAllFiles`: wildcard patterns are matched
against the entry's bare name; other patterns match by name equality or
by substring of the path relative to the root. -/
def shouldExclude (excludes : List String) (entryName relativePath : String) :
    Bool :=
  excludes.any fun pattern =>
    if pattern.data.contains '*' then
      globMatch pattern.data entryName.data
    else
      entryName == pattern || strIncludes relativePath.data pattern.data

mutual

/-- The body of the recursive `walk` of `getAllFiles` for one entry:
excluded entries are skipped together with their subtrees; an unreadable
directory's `readdir` throws, which propagates (there is no handler in
the source), modelled by `Except.error`. -/
def walkEntry (excludes : List String) (relDir : String) (entry : FSEntry) :
    Except Unit (List String) :=
  let relativePath :=
    if relDir = "" then entry.name else relDir ++ "/" ++ entry.name
  if shouldExclude excludes entry.name relativePath then Except.ok []
  else
    match entry with
    | .dir _ false _ => Except.error ()
    | .dir _ true entries => walkEntries excludes relativePath entries
    | .file _ _ => Except.ok [relativePath]

/-- Walk the entries of one directory in order, concatenating the
relative paths found. -/
def walkEntries (excludes : List String) (relDir : String) :
    List FSEntry → Except Unit (List String)
  | [] => Except.ok []
  | entry :: rest => do
    let first ← walkEntry excludes relDir entry
    let more ← walkEntries excludes relDir rest
    return first ++ more

end

namespace ClawScan

/-- `getAllFiles` of packages/core/src/index.ts over the filesystem
model: the relative paths of all non-excluded files under the root
(`none` is a root whose `readdir` itself fails). -/
def getAllFiles (rootEntries : Option (List FSEntry)) (excludes : List String) :
    Except Unit (List String) :=
  match rootEntries with
  | none => Except.error ()
  | some entries => walkEntries excludes "" entries

end ClawScan

/-- Find a directory entry by name. -/
def findEntry (name : String) : List FSEntry → Option FSEntry
  | [] => none
  | e :: rest => if e.name = name then some e else findEntry name rest

/-- Resolve a relative path (split on `/`) in the tree.  A trailing
empty component (a path written `dir/`) resolves only to a directory,
as `stat` does. -/
def fsLookup : List FSEntry → List String → Option FSEntry
  | _, [] => none
  | es, [p] => findEntry p es
  | es, [p, ""] =>
    match findEntry p es with
    | some (.dir n r sub) => some (.dir n r sub)
    | _ => none
  | es, p :: rest =>
    match findEntry p es with
    | some (.dir _ true sub) => fsLookup sub rest
    | _ => none

/-- The `readFile` of `createScanContext`: resolve the path and return
the text; reads of missing entries, directories, and unreadable files
throw in the source (`none` here). -/
def fsReadFile (rootEntries : List FSEntry) (path : String) : Option String :=
  match fsLookup rootEntries (jsSplit '/' path.data |>.map (⟨·⟩)) with
  | some (.file _ (some content)) => some content
  | _ => none

/-- The `fileExists` of `createScanContext`: `stat` succeeds exactly on
resolvable paths. -/
def fsExists (rootEntries : List FSEntry) (path : String) : Bool :=
  (fsLookup rootEntries (jsSplit '/' path.data |>.map (⟨·⟩))).isSome

/-- `createScanContext` of packages/core/src/index.ts. -/
def createScanContext (root : String) (rootEntries : List FSEntry)
    (files : List String) : ScanContext :=
  { root := root
    files := files
    readFile := fsReadFile rootEntries
    fileExists := fsExists rootEntries }

/-- `ScanOptions` of types.ts. -/
structure ScanOptions where
  path : String
  exclude : Option (List String) := none
  scanners : Option (List String) := none
  minSeverity : Option Severity := none

/-- The per-scanner loop of `scan`: run each scanner, filter its
findings by the minimum severity when one is given, and concatenate. -/
def runScanners (scanners : List Scanner) (context : ScanContext)
    (minSeverity : Option Severity) : List Finding :=
  match scanners with
  | [] => []
  | scanner :: rest =>
    let findings := scanner.scan context
    let filteredFindings :=
      match minSeverity with
      | some m => findings.filter fun f => decide (0 ≤ compareSeverity f.severity m)
      | none => findings
    filteredFindings ++ runScanners rest context minSeverity

/-- The pure tail of `scan` once the file list is known: select the
scanners, run them, and assemble the result with its summary. -/
def scanCore (options : ScanOptions) (rootEntries : List FSEntry)
    (files : List String) : ScanResult :=
  let context := createScanContext options.path rootEntries files
  let scannersToRun :=
    match options.scanners with
    | some names => DEFAULT_SCANNERS.filter fun s => names.contains s.name
    | none => DEFAULT_SCANNERS
  let allFindings := runScanners scannersToRun context options.minSeverity
  { root := options.path
    filesScanned := files.length
    findings := allFindings
    durationMs := 0
    summary := computeSummary allFindings }

/-- `scan` of packages/core/src/index.ts over the filesystem model:
discover files (an unreadable directory propagates as an error), build
the context, run the selected scanners with severity filtering, and
tally the summary. -/
def scan (rootEntries : Option (List FSEntry)) (options : ScanOptions) :
    Except Unit ScanResult :=
  let excludes := options.exclude.getD DEFAULT_EXCLUDES
  (ClawScan.getAllFiles rootEntries excludes).map fun files =>
    scanCore options (rootEntries.getD []) files

/-- `hasBlockingFindings` of packages/core/src/index.ts. -/
def hasBlockingFindings (result : ScanResult) : Bool :=
  decide (0 < result.summary.critical) || decide (0 < result.summary.high)

/-! ### Shared example inputs -/

/-- A directory whose only file is `.env`, with a `.git` directory
present and no `.gitignore`. -/
def envTree (content : String) : List FSEntry :=
  [FSEntry.file ".env" (some content), FSEntry.dir ".git" true []]

/-- `.env` content `OPENAI_KEY=sk-` followed by 48 alphanumeric
characters that make the key look like a placeholder. -/
def envContentX : String :=
  "OPENAI_KEY=sk-" ++ ⟨List.replicate 48 'x'⟩

/-! ### Summary lemmas -/

lemma summaryGet_bump (acc : Summary) (sev s : Severity) :
    summaryGet (bumpSummary acc sev) s
      = summaryGet acc s + (if sev = s then 1 else 0) := by
  cases sev <;> cases s <;> simp [bumpSummary, summaryGet]

lemma summaryGet_foldl (fs : List Finding) (acc : Summary) (s : Severity) :
    summaryGet (fs.foldl (fun a f => bumpSummary a f.severity) acc) s
      = summaryGet acc s + fs.countP (fun f => f.severity == s) := by
  induction fs generalizing acc with
  | nil => simp
  | cons f rest ih =>
    rw [List.foldl_cons, ih, summaryGet_bump, List.countP_cons]
    by_cases h : f.severity = s
    · simp [h]
      omega
    · simp [h]

lemma sumSummary_bump (acc : Summary) (sev : Severity) :
    sumSummary (bumpSummary acc sev) = sumSummary acc + 1 := by
  cases sev <;> simp [bumpSummary, sumSummary] <;> omega

lemma sumSummary_foldl (fs : List Finding) (acc : Summary) :
    sumSummary (fs.foldl (fun a f => bumpSummary a f.severity) acc)
      = sumSummary acc + fs.length := by
  induction fs generalizing acc with
  | nil => simp
  | cons f rest ih =>
    rw [List.foldl_cons, ih, sumSummary_bump, List.length_cons]
    omega

lemma scan_ok_iff (rootEntries : Option (List FSEntry)) (options : ScanOptions)
    (r : ScanResult) :
    scan rootEntries options = Except.ok r ↔
      ∃ files,
        ClawScan.getAllFiles rootEntries (options.exclude.getD DEFAULT_EXCLUDES)
          = Except.ok files
        ∧ r = scanCore options (rootEntries.getD []) files := by
  unfold scan
  cases h : ClawScan.getAllFiles rootEntries (options.exclude.getD DEFAULT_EXCLUDES) with
  | error e => simp [h, Except.map]
  | ok files =>
    simp only [h, Except.map, Except.ok.injEq]
    constructor
    · intro he
      exact ⟨files, rfl, he.symm⟩
    · rintro ⟨files', hf, hr⟩
      cases hf
      exact hr.symm

/-- C1.  For every scan result returned by `scan`, each summary entry is
the number of findings with that severity (all five severities are
present by construction of `Summary`), and the five counts sum to the
length of the findings list. -/
theorem scan_summary_counts (rootEntries : Option (List FSEntry))
    (options : ScanOptions) (r : ScanResult)
    (h : scan rootEntries options = Except.ok r) :
    (∀ s : Severity,
        summaryGet r.summary s = r.findings.countP (fun f => f.severity == s))
      ∧ sumSummary r.summary = r.findings.length := by
  obtain ⟨files, -, hr⟩ := (scan_ok_iff rootEntries options r).mp h
  subst hr
  have hz : ∀ s, summaryGet zeroSummary s = 0 := by
    intro s
    cases s <;> rfl
  constructor
  · intro s
    show summaryGet (computeSummary _) s = _
    rw [computeSummary, summaryGet_foldl, hz, Nat.zero_add]
    rfl
  · show sumSummary (computeSummary _) = _
    rw [computeSummary, sumSummary_foldl]
    simp only [zeroSummary, sumSummary, Nat.zero_add, Nat.add_zero]
    rfl

/-- Witness for C1 at a concrete directory: a `.env` file holding a
placeholder-looking key next to a `.git` marker, whose scan yields one
critical finding. -/
theorem scan_summary_counts_witness :
    summaryGet (scanCore { path := "." } (envTree envContentX) [".env"]).summary
        Severity.critical
      = (scanCore { path := "." } (envTree envContentX) [".env"]).findings.countP
          (fun f => f.severity == Severity.critical)
    ∧ sumSummary (scanCore { path := "." } (envTree envContentX) [".env"]).summary
      = (scanCore { path := "." } (envTree envContentX) [".env"]).findings.length :=
  ⟨(scan_summary_counts (some (envTree envContentX)) { path := "." } _ rfl).1
      Severity.critical,
   (scan_summary_counts (some (envTree envContentX)) { path := "." } _ rfl).2⟩

/-! ### C5: severity filtering -/

lemma runScanners_filter (scanners : List Scanner) (context : ScanContext)
    (m : Severity) :
    runScanners scanners context (some m)
      = (runScanners scanners context none).filter
          (fun f => decide (0 ≤ compareSeverity f.severity m)) := by
  induction scanners with
  | nil => simp [runScanners]
  | cons scanner rest ih =>
    simp only [runScanners, List.filter_append, ih]

/-- C5.  For every root directory and minimum severity `m`, the findings
of the filtered scan are exactly the findings of the unfiltered scan of
the same directory that compare at or above `m` under `compareSeverity`
(the total order critical > high > medium > low > info). -/
theorem scan_minSeverity_filter (rootEntries : Option (List FSEntry))
    (options : ScanOptions) (m : Severity) (r₀ r₁ : ScanResult)
    (h₀ : scan rootEntries { options with minSeverity := none } = Except.ok r₀)
    (h₁ : scan rootEntries { options with minSeverity := some m } = Except.ok r₁) :
    r₁.findings = r₀.findings.filter
      (fun f => decide (0 ≤ compareSeverity f.severity m)) := by
  obtain ⟨files₀, hf₀, hr₀⟩ := (scan_ok_iff _ _ _).mp h₀
  obtain ⟨files₁, hf₁, hr₁⟩ := (scan_ok_iff _ _ _).mp h₁
  rw [show ({ options with minSeverity := some m } : ScanOptions).exclude
        = options.exclude from rfl,
      show ({ options with minSeverity := none } : ScanOptions).exclude
        = options.exclude from rfl] at hf₀ hf₁
  rw [hf₀] at hf₁
  cases hf₁
  subst hr₀
  subst hr₁
  show runScanners _ _ (some m) = (runScanners _ _ none).filter _
  exact runScanners_filter _ _ m

/-- Witness for C5 at a concrete directory and minimum severity
`high`. -/
theorem scan_minSeverity_filter_witness :
    (scanCore { path := ".", minSeverity := some Severity.high }
        (envTree envContentX) [".env"]).findings
      = (scanCore { path := ".", minSeverity := none }
          (envTree envContentX) [".env"]).findings.filter
          (fun f => decide (0 ≤ compareSeverity f.severity Severity.high)) :=
  scan_minSeverity_filter (some (envTree envContentX)) { path := "." }
    Severity.high _ _ rfl rfl

/-! ### C2: recovery of the discovery walk -/

/-- C2.  The discovery walk has no error handler: a root containing a
subdirectory whose `readdir` fails makes the whole scan reject instead
of skipping the directory — the scan returns no result at all. -/
theorem scan_unreadable_dir_aborts :
    scan (some [FSEntry.dir "secrets" false [],
                FSEntry.file "app.ts" (some "export {}")])
      { path := "." } = Except.error () := rfl

/-! ### C3 and C10: masking -/

lemma maskSecret_data (s : String) :
    (maskSecret s).data
      = s.data.take 4 ++ ['.', '.', '.'] ++ s.data.drop (s.data.length - 4) := by
  unfold maskSecret
  split <;> rfl

lemma dropPrefix?_append_self (p rest : List Char) :
    dropPrefix? p (p ++ rest) = some rest := by
  induction p with
  | nil => rfl
  | cons c cs ih => simp [dropPrefix?, ih]

lemma dropPrefix?_isSome_length (p s : List Char)
    (h : (dropPrefix? p s).isSome = true) : p.length ≤ s.length := by
  induction p generalizing s with
  | nil => simp
  | cons c cs ih =>
    cases s with
    | nil => simp [dropPrefix?] at h
    | cons d ds =>
      rw [dropPrefix?] at h
      split at h
      · simpa using ih ds h
      · simp at h

lemma strIncludes_length (hay needle : List Char)
    (h : strIncludes hay needle = true) : needle.length ≤ hay.length := by
  induction hay with
  | nil =>
    rw [strIncludes, indexOfSub?] at h
    split at h
    · simpa using dropPrefix?_isSome_length needle [] (by assumption)
    · simp at h
  | cons c t ih =>
    rw [strIncludes, indexOfSub?] at h
    split at h
    · have := dropPrefix?_isSome_length needle (c :: t) (by assumption)
      simpa using this
    · have h' : (indexOfSub? needle t).isSome = true := by
        cases hx : indexOfSub? needle t with
        | none => rw [hx] at h; simp at h
        | some v => rfl
      have := ih h'
      simp only [List.length_cons]
      omega

lemma endsWithL_append (pre suf : List Char) :
    endsWithL (pre ++ suf) suf = true := by
  rw [endsWithL, List.length_append, Nat.add_sub_cancel, List.drop_left]
  simp

/-- C3.  For every matched secret of length at least 12, the masked
excerpt (`maskSecret`, defined identically in the credential pattern
detector and the structured-config detector) never contains the full
original string, begins with its first four characters and ends with its
last four characters. -/
theorem maskSecret_long_secret_masked (s : String) (h : 12 ≤ s.length) :
    strIncludes (maskSecret s).data s.data = false
    ∧ (dropPrefix? (s.data.take 4) (maskSecret s).data).isSome = true
    ∧ endsWithL (maskSecret s).data (s.data.drop (s.data.length - 4)) = true := by
  have hlen : s.length = s.data.length := rfl
  have hmask : (maskSecret s).data.length = 11 := by
    rw [maskSecret_data]
    simp only [List.length_append, List.length_take, List.length_drop,
      List.length_cons, List.length_nil]
    omega
  refine ⟨?_, ?_, ?_⟩
  · by_contra hinc
    have hinc' : strIncludes (maskSecret s).data s.data = true := by
      revert hinc
      cases strIncludes (maskSecret s).data s.data <;> simp
    have := strIncludes_length _ _ hinc'
    omega
  · rw [maskSecret_data, List.append_assoc, dropPrefix?_append_self]
    rfl
  · rw [maskSecret_data]
    exact endsWithL_append _ _

/-- Witness for C3 at a concrete sixteen-character secret. -/
theorem maskSecret_long_secret_masked_witness :
    12 ≤ ("abcdefghijklmnop" : String).length
    ∧ (strIncludes (maskSecret "abcdefghijklmnop").data "abcdefghijklmnop".data = false
       ∧ (dropPrefix? ("abcdefghijklmnop".data.take 4)
            (maskSecret "abcdefghijklmnop").data).isSome = true
       ∧ endsWithL (maskSecret "abcdefghijklmnop").data
            ("abcdefghijklmnop".data.drop ("abcdefghijklmnop".data.length - 4)) = true) :=
  ⟨by decide, maskSecret_long_secret_masked "abcdefghijklmnop" (by decide)⟩

lemma strIncludes_append_self (x rest : List Char) :
    strIncludes (x ++ rest) x = true := by
  cases x with
  | nil =>
    cases rest with
    | nil => rfl
    | cons c t => simp [strIncludes, indexOfSub?, dropPrefix?]
  | cons c cs =>
    have hd : dropPrefix? (c :: cs) (c :: (cs ++ rest)) = some rest := by
      simpa using dropPrefix?_append_self (c :: cs) rest
    simp [strIncludes, indexOfSub?, hd]

/-- C10.  For every matched secret of length at most 4, `maskSecret`
returns the whole text as both prefix and suffix around the `...`
joiner, so the masked excerpt contains the complete original secret. -/
theorem maskSecret_short_secret_disclosed (s : String) (h : s.length ≤ 4) :
    maskSecret s = ⟨s.data ++ ['.', '.', '.'] ++ s.data⟩
    ∧ strIncludes (maskSecret s).data s.data = true := by
  have hlen : s.length = s.data.length := rfl
  have hdata : (maskSecret s).data = s.data ++ ['.', '.', '.'] ++ s.data := by
    rw [maskSecret_data]
    rw [List.take_of_length_le (by omega), Nat.sub_eq_zero_of_le (by omega),
      List.drop_zero]
  refine ⟨?_, ?_⟩
  · cases s with
    | mk data => exact congrArg String.mk hdata
  · rw [hdata, List.append_assoc]
    exact strIncludes_append_self _ _

/-- Witness for C10 at the four-character secret `abcd`. -/
theorem maskSecret_short_secret_disclosed_witness :
    ("abcd" : String).length ≤ 4
    ∧ (maskSecret "abcd" = ⟨"abcd".data ++ ['.', '.', '.'] ++ "abcd".data⟩
       ∧ strIncludes (maskSecret "abcd").data "abcd".data = true) :=
  ⟨by decide, maskSecret_short_secret_disclosed "abcd" (by decide)⟩

/-! ### C8: no ignore file -/

/-- A context with no `.gitignore` but a `.git` marker. -/
def gitRepoNoIgnoreCtx : ScanContext :=
  { root := "."
    files := []
    readFile := fun _ => none
    fileExists := fun p => p == ".git" }

/-- A context with neither `.gitignore` nor `.git`. -/
def plainDirCtx : ScanContext :=
  { root := "."
    files := []
    readFile := fun _ => none
    fileExists := fun _ => false }

/-- C8.  When no ignore file exists at the root, the ignore-coverage
detector emits exactly the single critical "Missing .gitignore File"
finding when a `.git` marker is present, and nothing at all when it is
absent. -/
theorem gitignore_missing_file_policy (context : ScanContext)
    (h : context.fileExists ".gitignore" = false) :
    (context.fileExists ".git" = true →
      GitignoreScanner.scan context = [GitignoreScanner.missingGitignoreFinding]
      ∧ GitignoreScanner.missingGitignoreFinding.severity = Severity.critical
      ∧ GitignoreScanner.missingGitignoreFinding.title = "Missing .gitignore File")
    ∧ (context.fileExists ".git" = false → GitignoreScanner.scan context = []) := by
  constructor
  · intro hg
    refine ⟨?_, rfl, rfl⟩
    rw [GitignoreScanner.scan, h, hg]
    rfl
  · intro hg
    rw [GitignoreScanner.scan, h, hg]
    rfl

/-- Witness for C8 at two concrete contexts: a Git repository without an
ignore file, and a plain directory. -/
theorem gitignore_missing_file_policy_witness :
    GitignoreScanner.scan gitRepoNoIgnoreCtx
      = [GitignoreScanner.missingGitignoreFinding]
    ∧ GitignoreScanner.scan plainDirCtx = [] :=
  ⟨((gitignore_missing_file_policy gitRepoNoIgnoreCtx rfl).1 rfl).1,
   (gitignore_missing_file_policy plainDirCtx rfl).2 rfl⟩

/-! ### C6: ignore-coverage escalation -/

lemma strIncludes_append_right (pre suf : List Char) :
    strIncludes (pre ++ suf) suf = true := by
  induction pre with
  | nil => simpa using strIncludes_append_self suf []
  | cons c pre ih =>
    rw [List.cons_append, strIncludes, indexOfSub?]
    split
    · rfl
    · have : (indexOfSub? suf (pre ++ suf)).isSome = true := ih
      cases hx : indexOfSub? suf (pre ++ suf) with
      | none => rw [hx] at this; simp at this
      | some v => simp [hx]

/-- The `.env` entry of the required-ignore catalog. -/
def envRequiredIgnore : RequiredIgnore :=
  { pattern := ".env"
    description := "Environment files often contain API keys and secrets"
    severity := .critical
    checkFiles := some [".env", ".env.local", ".env.production"] }

/-- A context whose `.gitignore` lacks a `.env` entry while a `.env`
file is present on disk. -/
def gitignoreCtxWithEnv : ScanContext :=
  { root := "."
    files := [".gitignore", ".env"]
    readFile := fun p =>
      if p == ".gitignore" then some "node_modules\n"
      else if p == ".env" then some "KEY=1" else none
    fileExists := fun p => p == ".gitignore" || p == ".env" }

/-- The same ignore file with no `.env` (or other check file)
present. -/
def gitignoreCtxNoEnv : ScanContext :=
  { root := "."
    files := [".gitignore"]
    readFile := fun p => if p == ".gitignore" then some "node_modules\n" else none
    fileExists := fun p => p == ".gitignore" }

/-- C6.  For every required-ignore entry not covered by the parsed
ignore file, the emitted finding carries the entry's configured severity
when one of its check files exists (and its description then notes the
file's existence), and otherwise carries exactly the one-step softened
severity: critical becomes high and every other severity passes through.
In particular, with the `.env` entry uncovered, a present `.env` file
yields a critical finding and an absent one yields a high finding. -/
theorem gitignore_uncovered_entry_severity (context : ScanContext)
    (gitignoreContent : String) (required : RequiredIgnore)
    (hmem : required ∈ GitignoreScanner.REQUIRED_IGNORES)
    (hgi : context.fileExists ".gitignore" = true)
    (hread : context.readFile ".gitignore" = some gitignoreContent)
    (huncov : GitignoreScanner.isPatternCovered required.pattern
        (GitignoreScanner.parseGitignore gitignoreContent) = false) :
    GitignoreScanner.mkRequiredFinding required
        (GitignoreScanner.checkFileExists context required)
      ∈ GitignoreScanner.scan context
    ∧ (GitignoreScanner.checkFileExists context required = true →
        (GitignoreScanner.mkRequiredFinding required true).severity
            = required.severity
        ∧ strIncludes
            (GitignoreScanner.mkRequiredFinding required true).description.data
            " WARNING: This file exists in your repository!".data = true)
    ∧ (GitignoreScanner.checkFileExists context required = false →
        (required.severity = Severity.critical →
          (GitignoreScanner.mkRequiredFinding required false).severity
            = Severity.high)
        ∧ (required.severity ≠ Severity.critical →
          (GitignoreScanner.mkRequiredFinding required false).severity
            = required.severity))
    ∧ ((GitignoreScanner.scan gitignoreCtxWithEnv).find?
          (fun f => f.title == "Missing Gitignore: .env")).map Finding.severity
        = some Severity.critical
    ∧ ((GitignoreScanner.scan gitignoreCtxNoEnv).find?
          (fun f => f.title == "Missing Gitignore: .env")).map Finding.severity
        = some Severity.high := by
  refine ⟨?_, ?_, ?_, by decide, by decide⟩
  · rw [GitignoreScanner.scan, hgi, hread]
    show _ ∈ GitignoreScanner.REQUIRED_IGNORES.flatMap _
    refine List.mem_flatMap.mpr ⟨required, hmem, ?_⟩
    rw [huncov]
    simp
  · intro hex
    refine ⟨?_, ?_⟩
    · show GitignoreScanner.effectiveSeverity required true = required.severity
      rw [GitignoreScanner.effectiveSeverity, if_pos rfl]
    · show strIncludes (_ ++ (if (true : Bool) then _ else "")).data _ = true
      rw [if_pos rfl]
      rw [show ∀ a b : String, (a ++ b).data = a.data ++ b.data from fun _ _ => rfl]
      exact strIncludes_append_right _ _
  · intro hex
    constructor
    · intro hcrit
      show GitignoreScanner.effectiveSeverity required false = Severity.high
      rw [GitignoreScanner.effectiveSeverity, if_neg (by simp), if_pos hcrit]
    · intro hncrit
      show GitignoreScanner.effectiveSeverity required false = required.severity
      rw [GitignoreScanner.effectiveSeverity, if_neg (by simp), if_neg hncrit]

/-- Witness for C6: the `.env` entry against an ignore file that lacks
it, with the `.env` file present on disk. -/
theorem gitignore_uncovered_entry_severity_witness :
    GitignoreScanner.mkRequiredFinding envRequiredIgnore
        (GitignoreScanner.checkFileExists gitignoreCtxWithEnv envRequiredIgnore)
      ∈ GitignoreScanner.scan gitignoreCtxWithEnv :=
  (gitignore_uncovered_entry_severity gitignoreCtxWithEnv "node_modules\n"
      envRequiredIgnore (by decide) rfl rfl (by decide)).1

/-! ### C7: container audit checks -/

/-- A compose file with both `privileged: true` and `read_only: true`
under a service. -/
def composeExample : String :=
  "services:\n  app:\n    image: nginx:1.25\n    privileged: true\n    read_only: true\n"

/-- C7.  Each check of a table emits its finding exactly when its
presence pattern matches the content and its own anti-pattern, if
defined, does not; one finding per check however often the pattern
occurs; and an anti-pattern suppresses only its own check: in the
example compose file, `read_only: true` leaves the privileged-mode
finding intact while suppressing the missing-read-only check. -/
theorem docker_checks_emit_iff :
    (∀ (filePath content : String) (checks : List DockerCheck),
      DockerScanner.scanWithChecks filePath content checks
        = (checks.filter fun check =>
            check.pattern content
              && !((check.antiPattern.map fun ap => ap content).getD false)).map
            fun check =>
              DockerScanner.mkDockerFinding filePath check
                (DockerScanner.findCheckLine check content))
    ∧ (∃ f ∈ DockerScanner.scanWithChecks "docker-compose.yml" composeExample
          DockerScanner.COMPOSE_CHECKS,
        f.title = "Privileged Container Mode" ∧ f.severity = Severity.critical)
    ∧ (∀ f ∈ DockerScanner.scanWithChecks "docker-compose.yml" composeExample
          DockerScanner.COMPOSE_CHECKS,
        f.title ≠ "Missing Read-Only Filesystem") := by
  refine ⟨?_, by decide, by decide⟩
  intro filePath content checks
  induction checks with
  | nil => rfl
  | cons check rest ih =>
    show (if !check.pattern content then []
          else if (check.antiPattern.map fun ap => ap content).getD false then []
          else [DockerScanner.mkDockerFinding filePath check
                  (DockerScanner.findCheckLine check content)])
        ++ DockerScanner.scanWithChecks filePath content rest = _
    rw [List.filter_cons, ih]
    cases hp : check.pattern content
    · simp [hp]
    · cases ha : (check.antiPattern.map fun ap => ap content).getD false
      · simp [hp, ha]
      · simp [hp, ha]

/-- Witness for C7: the check table equation evaluated at the example
compose file. -/
theorem docker_checks_emit_iff_witness :
    DockerScanner.scanWithChecks "docker-compose.yml" composeExample
        DockerScanner.COMPOSE_CHECKS
      = (DockerScanner.COMPOSE_CHECKS.filter fun check =>
          check.pattern composeExample
            && !((check.antiPattern.map fun ap => ap composeExample).getD false)).map
          fun check =>
            DockerScanner.mkDockerFinding "docker-compose.yml" check
              (DockerScanner.findCheckLine check composeExample) :=
  docker_checks_emit_iff.1 "docker-compose.yml" composeExample
    DockerScanner.COMPOSE_CHECKS

/-! ### C4: end-to-end scan of a directory with a leaked OpenAI key

The spec's end-to-end property quantifies over every 48-character
alphanumeric key suffix.  The detector suppresses matches its
placeholder tests accept (for example 48 `x`s), so the property as
stated fails; it holds for every key the placeholder tests reject. -/

/-- `.env` content `OPENAI_KEY=sk-` followed by the characters `k`. -/
def envContent (k : List Char) : String :=
  "OPENAI_KEY=sk-" ++ ⟨k⟩

/-- C4 counterexample.  With the 48 alphanumeric characters all `x`, the
matched key satisfies the placeholder tests and is suppressed: the whole
scan yields a single finding (the missing-`.gitignore` one) and none
titled "Exposed OpenAI API Key" — fewer than the two findings the claim
requires. -/
theorem scan_env_placeholder_key_cex :
    (scan (some (envTree envContentX)) { path := "." }).toOption.map
      (fun r =>
        (r.findings.length,
         r.findings.countP (fun f => f.title == "Exposed OpenAI API Key"),
         r.findings.countP (fun f => f.title == "Missing .gitignore File"
            && decide (f.severity = Severity.critical))))
      = some (1, 0, 1) := by decide

lemma takeRun_all (p : Char → Bool) (l : List Char) (h : ∀ c ∈ l, p c = true) :
    takeRun p l = l.length := by
  induction l with
  | nil => rfl
  | cons c t ih =>
    rw [takeRun, if_pos (h c (List.mem_cons_self c t)),
      ih fun d hd => h d (List.mem_cons_of_mem c hd)]
    rfl

lemma matchItems_openAI (k : List Char) (hk : k.length = 48)
    (hall : ∀ c ∈ k, alnumChar c = true) :
    matchItems ApiKeysScanner.openAIKeyPattern.pattern ('s' :: 'k' :: '-' :: k)
      = some 51 := by
  have hrun : takeRun alnumChar k = 48 := by rw [takeRun_all _ _ hall, hk]
  have h1 : matchItems ApiKeysScanner.openAIKeyPattern.pattern
        ('s' :: 'k' :: '-' :: k)
      = (matchItems [RItem.cls alnumChar 48 (some 48)] k).map (· + 3) := rfl
  have hstep : matchItems [RItem.cls alnumChar 48 (some 48)] k
      = if takeRun alnumChar k < 48 then none
        else (descRange (min 48 (takeRun alnumChar k)) 48).findSome? fun n =>
          (matchItems ([] : List RItem) (k.drop n)).map (· + n) := rfl
  rw [h1, hstep, hrun]
  rfl

lemma firstMatchAux_cons_none (re : Regex) (c : Char) (t : List Char)
    (h : matchItems re (c :: t) = none) :
    firstMatchAux re (c :: t)
      = (firstMatchAux re t).map fun x => (x.1 + 1, x.2.1, x.2.2) := by
  rw [firstMatchAux, h]

lemma firstMatchAux_cons_some (re : Regex) (c : Char) (t : List Char) (len : Nat)
    (h : matchItems re (c :: t) = some len) :
    firstMatchAux re (c :: t) = some (0, len, c :: t) := by
  rw [firstMatchAux, h]

lemma firstMatchAux_skip (re : Regex) (pre t : List Char)
    (h : ∀ i, i < pre.length → matchItems re (pre.drop i ++ t) = none) :
    firstMatchAux re (pre ++ t)
      = (firstMatchAux re t).map fun x => (x.1 + pre.length, x.2.1, x.2.2) := by
  induction pre with
  | nil =>
    cases hx : firstMatchAux re t with
    | none => simp [hx]
    | some x => simp [hx]
  | cons c pre ih =>
    have h0 : matchItems re (c :: (pre ++ t)) = none := by
      simpa using h 0 (by simp)
    rw [List.cons_append, firstMatchAux_cons_none _ _ _ h0,
      ih fun i hi => by simpa using h (i + 1) (by simpa using Nat.succ_lt_succ hi)]
    cases hx : firstMatchAux re t with
    | none => simp
    | some x => simp [Nat.add_assoc]

lemma firstMatchAux_envContent (k : List Char) (hk : k.length = 48)
    (hall : ∀ c ∈ k, alnumChar c = true) :
    firstMatchAux ApiKeysScanner.openAIKeyPattern.pattern (envContent k).data
      = some (11, 51, 's' :: 'k' :: '-' :: k) := by
  have hnone : ∀ i, i < ("OPENAI_KEY=".data).length →
      matchItems ApiKeysScanner.openAIKeyPattern.pattern
        (("OPENAI_KEY=".data).drop i ++ ('s' :: 'k' :: '-' :: k)) = none := by
    intro i hi
    have hi' : i < 11 := by simpa using hi
    interval_cases i <;> rfl
  rw [show (envContent k).data
        = "OPENAI_KEY=".data ++ ('s' :: 'k' :: '-' :: k) from rfl,
    firstMatchAux_skip _ _ _ hnone,
    firstMatchAux_cons_some _ _ _ _ (matchItems_openAI k hk hall)]
  rfl

lemma execAllAux_nil (re : Regex) (h : matchItems re [] = none)
    (fuel base : Nat) : execAllAux re fuel base [] = [] := by
  cases fuel with
  | zero => rfl
  | succ n =>
    rw [execAllAux, show firstMatchAux re [] = none from by rw [firstMatchAux, h]]

lemma execAll_envContent (k : List Char) (hk : k.length = 48)
    (hall : ∀ c ∈ k, alnumChar c = true) :
    execAll ApiKeysScanner.openAIKeyPattern.pattern (envContent k).data
      = [(11, 's' :: 'k' :: '-' :: k)] := by
  have htake : k.take 48 = k := List.take_of_length_le (by omega)
  have hdrop : k.drop 48 = [] := by
    apply List.drop_eq_nil_of_le
    omega
  rw [execAll, execAllAux, firstMatchAux_envContent k hk hall]
  show (11, 's' :: 'k' :: '-' :: k.take 48) :: execAllAux _ _ 62 (k.drop 48) = _
  rw [htake, hdrop,
    execAllAux_nil ApiKeysScanner.openAIKeyPattern.pattern rfl]

/-- The finding the credential pattern detector emits for the matched
OpenAI key in `envContent k`. -/
def openAIEnvFinding (k : List Char) : Finding :=
  { scanner := "api-keys"
    severity := Severity.critical
    title := "Exposed OpenAI API Key"
    description := "Found a OpenAI API key. This secret should be stored in environment variables or a secrets manager, not in source code."
    file := ".env"
    line := some 1
    column := some 12
    matchText := some (maskSecret ⟨'s' :: 'k' :: '-' :: k⟩)
    fix := some "Move this secret to an environment variable (e.g., .env file) and reference it as process.env.OPENAI"
    cwe := some "CWE-798" }

/-- C4 amended.  For every `.env`-only directory with a `.git` marker
and no `.gitignore`, whose `.env` holds `OPENAI_KEY=sk-` plus 48
alphanumeric characters such that the matched key is not judged a
placeholder, the default scan yields at least two findings: a critical
"Exposed OpenAI API Key" in `.env` and a critical
"Missing .gitignore File". -/
theorem scan_env_key_findings (k : List Char) (hk : k.length = 48)
    (hall : ∀ c ∈ k, alnumChar c = true)
    (hph : ApiKeysScanner.isPlaceholder ('s' :: 'k' :: '-' :: k)
        ApiKeysScanner.openAIKeyPattern.placeholderPattern = false) :
    scan (some (envTree (envContent k))) { path := "." }
      = Except.ok (scanCore { path := "." } (envTree (envContent k)) [".env"])
    ∧ (∃ f ∈ (scanCore { path := "." } (envTree (envContent k)) [".env"]).findings,
        f.title = "Exposed OpenAI API Key" ∧ f.severity = Severity.critical
          ∧ f.file = ".env")
    ∧ (∃ g ∈ (scanCore { path := "." } (envTree (envContent k)) [".env"]).findings,
        g.title = "Missing .gitignore File" ∧ g.severity = Severity.critical)
    ∧ 2 ≤ (scanCore { path := "." } (envTree (envContent k)) [".env"]).findings.length := by
  have hmemSC : openAIEnvFinding k
      ∈ ApiKeysScanner.scanContent ".env" (envContent k) := by
    rw [ApiKeysScanner.scanContent]
    refine List.mem_flatMap.mpr ⟨ApiKeysScanner.openAIKeyPattern, ?_, ?_⟩
    · unfold ApiKeysScanner.KEY_PATTERNS
      exact List.mem_cons_of_mem _ (List.mem_cons_self _ _)
    · refine List.mem_filterMap.mpr ⟨(11, 's' :: 'k' :: '-' :: k), ?_, ?_⟩
      · rw [execAll_envContent k hk hall]
        exact List.mem_cons_self _ _
      · show (if ApiKeysScanner.isPlaceholder ('s' :: 'k' :: '-' :: k)
              ApiKeysScanner.openAIKeyPattern.placeholderPattern then none
            else some (openAIEnvFinding k)) = some (openAIEnvFinding k)
        rw [hph]
        rfl
  have hfind : (scanCore { path := "." } (envTree (envContent k)) [".env"]).findings
      = ApiKeysScanner.scanContent ".env" (envContent k) ++ []
        ++ (ConfigSecretsScanner.scan
              (createScanContext "." (envTree (envContent k)) [".env"])
          ++ (DockerScanner.scan
                (createScanContext "." (envTree (envContent k)) [".env"])
            ++ ([GitignoreScanner.missingGitignoreFinding] ++ []))) := rfl
  refine ⟨rfl, ?_, ?_, ?_⟩
  · refine ⟨openAIEnvFinding k, ?_, rfl, rfl, rfl⟩
    rw [hfind]
    exact List.mem_append_left _ (List.mem_append_left _ hmemSC)
  · refine ⟨GitignoreScanner.missingGitignoreFinding, ?_, rfl, rfl⟩
    rw [hfind]
    refine List.mem_append_right _ (List.mem_append_right _
      (List.mem_append_right _ (List.mem_append_left _ (List.mem_cons_self _ _))))
  · rw [hfind]
    simp only [List.length_append, List.length_cons, List.length_nil]
    have h1 : 0 < (ApiKeysScanner.scanContent ".env" (envContent k)).length :=
      List.length_pos_of_mem hmemSC
    omega

/-- Witness for C4 (amended) at the key suffix of 48 `A`s. -/
theorem scan_env_key_findings_witness :
    (List.replicate 48 'A').length = 48
    ∧ (∃ f ∈ (scanCore { path := "." }
          (envTree (envContent (List.replicate 48 'A'))) [".env"]).findings,
        f.title = "Exposed OpenAI API Key" ∧ f.severity = Severity.critical
          ∧ f.file = ".env") :=
  ⟨by decide,
   (scan_env_key_findings (List.replicate 48 'A') (by decide) (by decide)
      (by decide)).2.1⟩

/-! ### C9: per-value processing of the structured-config detector -/

/-- C9.  For every config value of length at least 10 that is not a
placeholder, the detector adds at most one catalog finding — the first
matching catalog entry only, even when several match — and then the
heuristic finding only when no finding already recorded for the file
carries the same masked value. -/
theorem config_value_processing (filePath content : String)
    (findings : List Finding) (path value : String)
    (hlen : 10 ≤ value.length)
    (hph : ConfigSecretsScanner.isPlaceholder value = false) :
    ∃ heur : List Finding,
      ConfigSecretsScanner.processValue filePath content findings (path, value)
        = (findings
            ++ (ConfigSecretsScanner.catalogFinding filePath content path value).toList)
          ++ heur
      ∧ (ConfigSecretsScanner.catalogFinding filePath content path value).toList.length ≤ 1
      ∧ (∀ kp ∈ ApiKeysScanner.KEY_PATTERNS, reTest kp.pattern value.data = true →
          ∃ pre post kp0,
            ApiKeysScanner.KEY_PATTERNS = pre ++ kp0 :: post
            ∧ reTest kp0.pattern value.data = true
            ∧ (∀ kp' ∈ pre, reTest kp'.pattern value.data = false)
            ∧ ConfigSecretsScanner.catalogFinding filePath content path value
                = some (ConfigSecretsScanner.mkCatalogFinding filePath content path
                    value kp0))
      ∧ (heur ≠ [] →
          ∀ f ∈ findings
              ++ (ConfigSecretsScanner.catalogFinding filePath content path value).toList,
            (f.file == filePath && f.matchText == some (maskSecret value)) = false) := by
  have hlen1 : (ConfigSecretsScanner.catalogFinding filePath content path value).toList.length ≤ 1 := by
    cases ConfigSecretsScanner.catalogFinding filePath content path value <;> simp
  have hfirst : ∀ kp ∈ ApiKeysScanner.KEY_PATTERNS, reTest kp.pattern value.data = true →
      ∃ pre post kp0,
        ApiKeysScanner.KEY_PATTERNS = pre ++ kp0 :: post
        ∧ reTest kp0.pattern value.data = true
        ∧ (∀ kp' ∈ pre, reTest kp'.pattern value.data = false)
        ∧ ConfigSecretsScanner.catalogFinding filePath content path value
            = some (ConfigSecretsScanner.mkCatalogFinding filePath content path
                value kp0) := by
    intro kp hkp hmatch
    have hsome : (ApiKeysScanner.KEY_PATTERNS.find? fun p =>
        reTest p.pattern value.data).isSome := by
      rw [List.find?_isSome]
      exact ⟨kp, hkp, hmatch⟩
    obtain ⟨kp0, hfind⟩ := Option.isSome_iff_exists.mp hsome
    obtain ⟨hkp0, as, bs, hsplit, hearlier⟩ := List.find?_eq_some.mp hfind
    refine ⟨as, bs, kp0, hsplit, hkp0, ?_, ?_⟩
    · intro kp' hkp'
      have := hearlier kp' hkp'
      revert this
      cases reTest kp'.pattern value.data <;> simp
    · rw [ConfigSecretsScanner.catalogFinding, hfind]
      rfl
  have hc1 : ¬ value.length < 10 := by omega
  simp only [ConfigSecretsScanner.processValue]
  rw [if_neg hc1, if_neg (by simp [hph])]
  split_ifs with hs hdup
  · exact ⟨[], by simp, hlen1, hfirst, by intro h; exact absurd rfl h⟩
  · refine ⟨[ConfigSecretsScanner.mkHeuristicFinding filePath content path value
        (String.mk ((jsSplit '.' path.data).getLastD []))], rfl, hlen1, hfirst, ?_⟩
    intro _ f hf
    have hany := hdup
    rw [Bool.not_eq_true, List.any_eq_false] at hany
    have := hany f hf
    revert this
    cases f.file == filePath && f.matchText == some (maskSecret value) <;> simp
  · exact ⟨[], by simp, hlen1, hfirst, by intro h; exact absurd rfl h⟩

/-- Witness for C9 at a concrete ten-character non-placeholder value. -/
theorem config_value_processing_witness :
    ∃ heur : List Finding,
      ConfigSecretsScanner.processValue "config.json" "" [] ("token", "abcdefghij")
        = ([]
            ++ (ConfigSecretsScanner.catalogFinding "config.json" "" "token"
                  "abcdefghij").toList)
          ++ heur
      ∧ (ConfigSecretsScanner.catalogFinding "config.json" "" "token"
            "abcdefghij").toList.length ≤ 1
      ∧ (∀ kp ∈ ApiKeysScanner.KEY_PATTERNS,
          reTest kp.pattern ("abcdefghij" : String).data = true →
          ∃ pre post kp0,
            ApiKeysScanner.KEY_PATTERNS = pre ++ kp0 :: post
            ∧ reTest kp0.pattern ("abcdefghij" : String).data = true
            ∧ (∀ kp' ∈ pre, reTest kp'.pattern ("abcdefghij" : String).data = false)
            ∧ ConfigSecretsScanner.catalogFinding "config.json" "" "token"
                  "abcdefghij"
                = some (ConfigSecretsScanner.mkCatalogFinding "config.json" ""
                    "token" "abcdefghij" kp0))
      ∧ (heur ≠ [] →
          ∀ f ∈ ([] : List Finding)
              ++ (ConfigSecretsScanner.catalogFinding "config.json" "" "token"
                    "abcdefghij").toList,
            (f.file == ("config.json" : String)
              && f.matchText == some (maskSecret "abcdefghij")) = false) :=
  config_value_processing "config.json" "" [] "token" "abcdefghij"
    (by decide) (by decide)
